import Mathlib

/-!
Verification development for the PinPoint tunnel-management core
(`src/backend/tunnels.py`, `src/backend/main.py`,
`src/scripts/pinpoint-update.py`).

The Python code is shallowly embedded: Python dicts holding JSON-like data
become `JVal` / `Dict` values, functions that may raise become `Except`,
the random `generate_id()` is threaded in as an explicit id supply, and the
external side effects (filesystem, `nft`, process restarts) are modelled as
explicit state passed through the functions.  Library calls
(`base64.b64decode`, `json.loads`, `urllib.parse` helpers) are modelled by
executable Lean functions whose behaviour matches CPython on the inputs the
code feeds them; divergences are noted in the doc comments of the models.
`yaml.safe_load` is not modelled: the Clash parser is parameterised by the
loader.
-/

namespace Pinpoint

/-- JSON-like dynamic value, the model of the Python objects that flow
through the parsers and generators (results of `json.loads`, dict values,
config documents). Numbers are modelled as integers: every numeric field
the code manipulates is integral. -/
inductive JVal where
  | null : JVal
  | bool : Bool → JVal
  | num : Int → JVal
  | str : String → JVal
  | arr : List JVal → JVal
  | obj : List (String × JVal) → JVal

/-- A Python dict with string keys, as produced by the parsers
(`settings`, `tls`, `transport`, generated outbounds, the whole config). -/
abbrev Dict := List (String × JVal)

/-- `d.get(k)` on a dict: first binding wins (Python dicts have unique
keys; the embedding only ever builds duplicate-free dicts). -/
def dget (d : Dict) (k : String) : Option JVal :=
  (d.find? (fun p => p.1 == k)).map (fun p => p.2)

/-- `d.get(k, default)`. -/
def dgetD (d : Dict) (k : String) (v : JVal) : JVal :=
  (dget d k).getD v

/-- `d[k] = v`: update the first binding of `k` in place, else append
(Python dict assignment keeps the insertion position of an existing key). -/
def dset (d : Dict) (k : String) (v : JVal) : Dict :=
  match d with
  | [] => [(k, v)]
  | (k0, v0) :: rest =>
      if k0 == k then (k0, v) :: rest else (k0, v0) :: dset rest k v

/-- Python truthiness of a `JVal` (`if x:`). -/
def pyTruthy : JVal → Bool
  | .null => false
  | .bool b => b
  | .num n => n != 0
  | .str s => s != ""
  | .arr l => !l.isEmpty
  | .obj d => !d.isEmpty

/-- `x == "s"` where `x` is a dynamic value: true only for the equal
string (Python cross-type `==` is `False`). -/
def jvalIsStr (x : Option JVal) (s : String) : Bool :=
  match x with
  | some (.str t) => t == s
  | _ => false

/-- `.get(k, default)` on a dynamic value: raises `AttributeError` when the
receiver is not a dict, as Python does. -/
def pyGetD (v : JVal) (k : String) (dflt : JVal) : Except String JVal :=
  match v with
  | .obj d => .ok (dgetD d k dflt)
  | _ => .error "AttributeError"

/-- `.get(k)` on a dynamic value (default `None`). -/
def pyGet (v : JVal) (k : String) : Except String JVal :=
  pyGetD v k .null

/-- Coerce a dynamic value into a `String` field of the tunnel record.
The Python code stores whatever value the subscription document carried;
the embedding keeps the record typed and models a non-string value as a
failure of the surrounding `try` block. -/
def asStr (v : JVal) : Except String String :=
  match v with
  | .str s => .ok s
  | _ => .error "TypeError: expected str"

/-- Coerce a dynamic value into a list of dynamic values. -/
def asArr (v : JVal) : Except String (List JVal) :=
  match v with
  | .arr l => .ok l
  | _ => .error "TypeError: expected list"

-- ===== character-level helpers (the Python `str` operations) =====

/-- Python whitespace for `str.strip()`. -/
def isPyWs (c : Char) : Bool :=
  c == ' ' || c == '\t' || c == '\n' || c == '\r' || c == '\x0b' || c == '\x0c'

/-- `str.strip()`. -/
def pyStrip (l : List Char) : List Char :=
  (l.dropWhile isPyWs).reverse.dropWhile isPyWs |>.reverse

/-- `a.startswith(p)`. -/
def startsWith (p l : List Char) : Bool :=
  p.isPrefixOf l

/-- `s.split(sep, 1)` at the first occurrence; `none` when `sep` is absent
(where Python would return a one-element list). -/
def splitOnce (sep : Char) : List Char → Option (List Char × List Char)
  | [] => none
  | c :: rest =>
      if c == sep then some ([], rest)
      else (splitOnce sep rest).map (fun p => (c :: p.1, p.2))

/-- `s.rsplit(sep, 1)` at the last occurrence; `none` when absent. -/
def rsplitOnce (sep : Char) (l : List Char) : Option (List Char × List Char) :=
  match splitOnce sep l.reverse with
  | none => none
  | some (a, b) => some (b.reverse, a.reverse)

/-- `sep in s`. -/
def containsChar (sep : Char) (l : List Char) : Bool :=
  l.contains sep

/-- `s.split(sep)` (all occurrences, keeping empty pieces). -/
def splitAll (sep : Char) : List Char → List (List Char)
  | [] => [[]]
  | c :: rest =>
      if c == sep then [] :: splitAll sep rest
      else
        match splitAll sep rest with
        | [] => [[c]]
        | h :: t => (c :: h) :: t

/-- ASCII lowercase, the model of `str.lower()` on the ASCII data the
parsers handle. -/
def asciiLower (c : Char) : Char :=
  if 'A' ≤ c ∧ c ≤ 'Z' then Char.ofNat (c.toNat + 32) else c

def lowerStr (l : List Char) : List Char := l.map asciiLower

/-- Model of Python `int(s)` on strings: optional surrounding whitespace,
optional sign, at least one decimal digit.  (CPython additionally accepts
underscore digit grouping, which never occurs in the data the code
parses.) -/
def pyIntOfChars (l : List Char) : Except String Int :=
  let core := pyStrip l
  let (neg, digits) :=
    match core with
    | '-' :: rest => (true, rest)
    | '+' :: rest => (false, rest)
    | rest => (false, rest)
  if digits.isEmpty ∨ ¬ digits.all (fun c => c.isDigit) then
    .error "ValueError: invalid literal for int"
  else
    let n : Nat := digits.foldl (fun acc c => acc * 10 + (c.toNat - 48)) 0
    .ok (if neg then -(n : Int) else (n : Int))

/-- Python `int(x)` on a dynamic value, as used on JSON fields
(`int(data.get("port", 443))`): strings are parsed, integers pass through,
booleans coerce, anything else raises. -/
def pyIntOfJVal (v : JVal) : Except String Int :=
  match v with
  | .num n => .ok n
  | .bool b => .ok (if b then 1 else 0)
  | .str s => pyIntOfChars s.data
  | _ => .error "TypeError: int() argument"

-- ===== base64 (model of `base64.b64decode` / `base64.urlsafe_b64decode`) =====

def isB64Char (c : Char) : Bool :=
  c.isAlpha || c.isDigit || c == '+' || c == '/'

def b64Value (c : Char) : Nat :=
  if 'A' ≤ c ∧ c ≤ 'Z' then c.toNat - 65
  else if 'a' ≤ c ∧ c ≤ 'z' then c.toNat - 97 + 26
  else if '0' ≤ c ∧ c ≤ '9' then c.toNat - 48 + 52
  else if c == '+' then 62
  else 63

/-- Decode complete groups of four 6-bit values into bytes, plus a final
group of two or three values into one or two bytes. -/
def b64Groups : List Nat → List Nat
  | a :: b :: c :: d :: rest =>
      (a * 4 + b / 16) :: ((b % 16) * 16 + c / 4) :: ((c % 4) * 64 + d) :: b64Groups rest
  | [a, b] => [a * 4 + b / 16]
  | [a, b, c] => [a * 4 + b / 16, (b % 16) * 16 + c / 4]
  | _ => []

/-- Model of `base64.b64decode(s)` (default `validate=False`) for inputs
whose `=` characters occur only at the end of the data, which is the shape
the code produces (it only ever appends `=` padding): characters outside
the alphabet are discarded, then the count of data characters must be
0, 2 or 3 mod 4, the latter two requiring at least 2 resp. 1 padding
characters; otherwise `binascii.Error` is raised. -/
def b64decodePy (l : List Char) : Except String (List Nat) :=
  let pre := l.takeWhile (fun c => c != '=')
  let data := pre.filter isB64Char
  let pads := ((l.dropWhile (fun c => c != '=')).filter (fun c => c == '=')).length
  let vals := data.map b64Value
  match data.length % 4 with
  | 0 => .ok (b64Groups vals)
  | 2 => if pads ≥ 2 then .ok (b64Groups vals) else .error "binascii.Error: Incorrect padding"
  | 3 => if pads ≥ 1 then .ok (b64Groups vals) else .error "binascii.Error: Incorrect padding"
  | _ => .error "binascii.Error: Invalid base64-encoded string"

/-- `base64.urlsafe_b64decode`: translate `-`/`_` to `+`/`/` first. -/
def urlsafeB64decodePy (l : List Char) : Except String (List Nat) :=
  b64decodePy (l.map (fun c => if c == '-' then '+' else if c == '_' then '/' else c))

-- ===== UTF-8 (model of `bytes.decode('utf-8')`) =====

def isCont (b : Nat) : Bool := 0x80 ≤ b ∧ b < 0xC0

/-- Strict UTF-8 decoding of a byte list, as `bytes.decode('utf-8')`:
rejects invalid start bytes, truncated sequences, overlong encodings,
surrogates and values above U+10FFFF. -/
def utf8Decode : List Nat → Except String (List Char)
  | [] => .ok []
  | b :: rest =>
      if b < 0x80 then
        (utf8Decode rest).map (fun cs => Char.ofNat b :: cs)
      else if 0xC2 ≤ b ∧ b ≤ 0xDF then
        match rest with
        | c1 :: rest2 =>
            if isCont c1 then
              (utf8Decode rest2).map
                (fun cs => Char.ofNat ((b - 0xC0) * 64 + (c1 - 0x80)) :: cs)
            else .error "UnicodeDecodeError"
        | _ => .error "UnicodeDecodeError"
      else if 0xE0 ≤ b ∧ b ≤ 0xEF then
        match rest with
        | c1 :: c2 :: rest2 =>
            let lo1 := if b == 0xE0 then 0xA0 else 0x80
            let hi1 := if b == 0xED then 0x9F else 0xBF
            if lo1 ≤ c1 ∧ c1 ≤ hi1 ∧ isCont c2 then
              (utf8Decode rest2).map
                (fun cs =>
                  Char.ofNat ((b - 0xE0) * 4096 + (c1 - 0x80) * 64 + (c2 - 0x80)) :: cs)
            else .error "UnicodeDecodeError"
        | _ => .error "UnicodeDecodeError"
      else if 0xF0 ≤ b ∧ b ≤ 0xF4 then
        match rest with
        | c1 :: c2 :: c3 :: rest2 =>
            let lo1 := if b == 0xF0 then 0x90 else 0x80
            let hi1 := if b == 0xF4 then 0x8F else 0xBF
            if lo1 ≤ c1 ∧ c1 ≤ hi1 ∧ isCont c2 ∧ isCont c3 then
              (utf8Decode rest2).map
                (fun cs =>
                  Char.ofNat
                    ((b - 0xF0) * 262144 + (c1 - 0x80) * 4096 +
                      (c2 - 0x80) * 64 + (c3 - 0x80)) :: cs)
            else .error "UnicodeDecodeError"
        | _ => .error "UnicodeDecodeError"
      else .error "UnicodeDecodeError"

-- ===== percent decoding and query parsing (`urllib.parse`) =====

def isHexDigit (c : Char) : Bool :=
  c.isDigit || ('a' ≤ c ∧ c ≤ 'f') || ('A' ≤ c ∧ c ≤ 'F')

def hexVal (c : Char) : Nat :=
  if c.isDigit then c.toNat - 48
  else if 'a' ≤ c ∧ c ≤ 'f' then c.toNat - 97 + 10
  else c.toNat - 65 + 10

/-- Tokenise a percent-encoded string into literal characters and decoded
bytes, mirroring the `split('%')` structure of `urllib.parse.unquote`:
a piece starting with two hex digits contributes a byte, any other piece
restores the literal `%`. -/
def pctTokens (l : List Char) : List (Sum Char Nat) :=
  match splitAll '%' l with
  | [] => []
  | first :: pieces =>
      first.map Sum.inl ++
        pieces.foldr (fun piece acc =>
          (match piece with
           | a :: b :: r2 =>
               if isHexDigit a ∧ isHexDigit b then
                 .inr (hexVal a * 16 + hexVal b) :: r2.map Sum.inl
               else .inl '%' :: piece.map Sum.inl
           | _ => .inl '%' :: piece.map Sum.inl) ++ acc) []

/-- Decode a byte run with the `errors='replace'` handler: on an invalid
sequence emit U+FFFD, drop one byte and continue (an approximation of the
CPython handler; the code never feeds it invalid sequences). -/
def utf8Replace : List Nat → List Char
  | [] => []
  | bs@(_ :: rest) =>
      match utf8Decode bs with
      | .ok cs => cs
      | .error _ => Char.ofNat 0xFFFD :: utf8Replace rest

/-- Group maximal byte runs produced by `pctScan` and decode them,
keeping literal characters as they are; `acc` is the byte run
accumulated so far, in reverse. -/
def pctAssembleAux (acc : List Nat) : List (Sum Char Nat) → List Char
  | [] => utf8Replace acc.reverse
  | .inl c :: rest => utf8Replace acc.reverse ++ c :: pctAssembleAux [] rest
  | .inr b :: rest => pctAssembleAux (b :: acc) rest

/-- Model of `urllib.parse.unquote` (UTF-8, `errors='replace'`). -/
def unquote (l : List Char) : List Char :=
  pctAssembleAux [] (pctTokens l)

/-- `urllib.parse.unquote_plus`: `+` becomes a space, then unquote. -/
def unquotePlus (l : List Char) : List Char :=
  unquote (l.map (fun c => if c == '+' then ' ' else c))

/-- Model of `urllib.parse.parse_qsl(q)` with the default options:
split on `&`, skip empty fields, skip fields without `=` and fields whose
value is empty, percent-decode names and values. -/
def parseQsl (q : List Char) : List (List Char × List Char) :=
  (splitAll '&' q).filterMap (fun nv =>
    if nv.isEmpty then none
    else
      match splitOnce '=' nv with
      | none => none
      | some (n, v) => if v.isEmpty then none else some (unquotePlus n, unquotePlus v))

/-- `dict(parse_qsl(q)).get(k)`: the last binding of a repeated key wins. -/
def qget (params : List (List Char × List Char)) (k : String) : Option (List Char) :=
  ((params.reverse).find? (fun p => p.1 == k.data)).map (fun p => p.2)

/-- `params.get(k, default)` as a string. -/
def qgetD (params : List (List Char × List Char)) (k : String) (dflt : String) : String :=
  match qget params k with
  | some v => String.mk v
  | none => dflt

-- ===== JSON (model of `json.loads`) =====

def lbrace : Char := Char.ofNat 123

def rbrace : Char := Char.ofNat 125

def jskipWs (l : List Char) : List Char :=
  l.dropWhile (fun c => c == ' ' || c == '\t' || c == '\n' || c == '\r')

def hexQuad (a b c d : Char) : Option Nat :=
  if isHexDigit a ∧ isHexDigit b ∧ isHexDigit c ∧ isHexDigit d then
    some (hexVal a * 4096 + hexVal b * 256 + hexVal c * 16 + hexVal d)
  else none

/-- Body of a JSON string after the opening quote: returns the decoded
characters and the remaining input.  Raw control characters and invalid
escapes are errors, as in `json.loads`; lone UTF-16 surrogates (which
CPython would keep as surrogate code units) are modelled as errors. -/
def jparseStrBody : List Char → Except String (List Char × List Char)
  | [] => .error "json: Unterminated string"
  | '"' :: rest => .ok ([], rest)
  | '\\' :: rest =>
      match rest with
      | '"' :: r2 => (jparseStrBody r2).map (fun p => ('"' :: p.1, p.2))
      | '\\' :: r2 => (jparseStrBody r2).map (fun p => ('\\' :: p.1, p.2))
      | '/' :: r2 => (jparseStrBody r2).map (fun p => ('/' :: p.1, p.2))
      | 'b' :: r2 => (jparseStrBody r2).map (fun p => ('\x08' :: p.1, p.2))
      | 'f' :: r2 => (jparseStrBody r2).map (fun p => ('\x0c' :: p.1, p.2))
      | 'n' :: r2 => (jparseStrBody r2).map (fun p => ('\n' :: p.1, p.2))
      | 'r' :: r2 => (jparseStrBody r2).map (fun p => ('\r' :: p.1, p.2))
      | 't' :: r2 => (jparseStrBody r2).map (fun p => ('\t' :: p.1, p.2))
      | 'u' :: a :: b :: c :: d :: r2 =>
          match hexQuad a b c d with
          | some n =>
              if 0xD800 ≤ n ∧ n ≤ 0xDFFF then .error "json: surrogate"
              else (jparseStrBody r2).map (fun p => (Char.ofNat n :: p.1, p.2))
          | none => .error "json: Invalid \\uXXXX escape"
      | _ => .error "json: Invalid \\escape"
  | c :: rest =>
      if c.toNat < 0x20 then .error "json: Invalid control character"
      else (jparseStrBody rest).map (fun p => (c :: p.1, p.2))

/-- JSON number: optional minus and a digit run (the code only ever
consumes integral JSON numbers; fractions and exponents are modelled as
parse errors). -/
def jparseNum (l : List Char) : Except String (Int × List Char) :=
  let (neg, l2) := match l with
    | '-' :: r => (true, r)
    | r => (false, r)
  let digits := l2.takeWhile Char.isDigit
  let rest := l2.dropWhile Char.isDigit
  if digits.isEmpty then .error "json: Expecting value"
  else
    match rest with
    | '.' :: _ => .error "json: float not modelled"
    | 'e' :: _ => .error "json: float not modelled"
    | 'E' :: _ => .error "json: float not modelled"
    | _ =>
        let n : Nat := digits.foldl (fun acc c => acc * 10 + (c.toNat - 48)) 0
        .ok ((if neg then -(n : Int) else (n : Int)), rest)

mutual

def jparseVal : Nat → List Char → Except String (JVal × List Char)
  | 0, _ => .error "json: fuel exhausted"
  | Nat.succ fuel, l =>
      let l := jskipWs l
      match l with
      | 'n' :: 'u' :: 'l' :: 'l' :: rest => .ok (.null, rest)
      | 't' :: 'r' :: 'u' :: 'e' :: rest => .ok (.bool true, rest)
      | 'f' :: 'a' :: 'l' :: 's' :: 'e' :: rest => .ok (.bool false, rest)
      | '"' :: rest => (jparseStrBody rest).map (fun p => (.str (String.mk p.1), p.2))
      | c :: rest =>
          if c == '[' then
            let r2 := jskipWs rest
            match r2 with
            | ']' :: r3 => .ok (.arr [], r3)
            | _ => jparseArrItems fuel r2 []
          else if c == lbrace then
            let r2 := jskipWs rest
            match r2 with
            | c2 :: r3 => if c2 == rbrace then .ok (.obj [], r3) else jparseObjItems fuel r2 []
            | [] => .error "json: Expecting property name"
          else (jparseNum (c :: rest)).map (fun p => (.num p.1, p.2))
      | [] => .error "json: Expecting value"

def jparseArrItems : Nat → List Char → List JVal → Except String (JVal × List Char)
  | 0, _, _ => .error "json: fuel exhausted"
  | Nat.succ fuel, l, acc =>
      match jparseVal fuel l with
      | .error e => .error e
      | .ok (v, rest) =>
          match jskipWs rest with
          | ',' :: r2 => jparseArrItems fuel r2 (acc ++ [v])
          | ']' :: r2 => .ok (.arr (acc ++ [v]), r2)
          | _ => .error "json: Expecting comma"

def jparseObjItems : Nat → List Char → Dict → Except String (JVal × List Char)
  | 0, _, _ => .error "json: fuel exhausted"
  | Nat.succ fuel, l, acc =>
      match jskipWs l with
      | '"' :: rest =>
          match jparseStrBody rest with
          | .error e => .error e
          | .ok (key, r2) =>
              match jskipWs r2 with
              | ':' :: r3 =>
                  match jparseVal fuel r3 with
                  | .error e => .error e
                  | .ok (v, r4) =>
                      let acc2 := dset acc (String.mk key) v
                      match jskipWs r4 with
                      | ',' :: r5 => jparseObjItems fuel r5 acc2
                      | c :: r5 =>
                          if c == rbrace then .ok (.obj acc2, r5)
                          else .error "json: Expecting comma"
                      | [] => .error "json: Expecting comma"
              | _ => .error "json: Expecting colon"
      | _ => .error "json: Expecting property name"

end

/-- Model of `json.loads`: parse one value and require only whitespace to
follow ("Extra data" otherwise). -/
def jloads (s : String) : Except String JVal :=
  match jparseVal (4 * s.data.length + 16) s.data with
  | .error e => .error e
  | .ok (v, rest) =>
      if (jskipWs rest).isEmpty then .ok v else .error "json: Extra data"

-- ===== Data model (tunnels.py dataclasses-as-dicts) =====

/-- The canonical tunnel record the parsers build (`tunnels.py`, the dict
literals in `parse_*_link` / subscription parsers).  `settings`, `tls` and
`transport` are Python dicts holding protocol-specific dynamic values.
The random `generate_id()` output is threaded in by the caller as `id`. -/
structure Tunnel where
  id : String
  name : String
  type : String
  enabled : Bool
  server : String
  port : Int
  source : String
  subscription_id : Option String
  latency : Option Int
  last_check : Option Int
  settings : Dict
  tls : Dict
  transport : Dict

/-- A tunnel group record (`tunnel_groups.json` entries). -/
structure TunnelGroup where
  id : String
  name : String
  tag : Option String
  type : String
  tunnels : List String
  interval : Option String
  tolerance : Option Int

/-- One routing rule (`routing_rules.json` `rules` entries). -/
structure RoutingRule where
  outbound : Option String
  domains : List String
  domain_keywords : List String
  enabled : Bool

/-- The routing-rules document (`load_routing_rules` shape). -/
structure RoutingRules where
  default_outbound : Option String
  rules : List RoutingRule

/-- A subscription record. -/
structure Subscription where
  id : String
  name : String
  url : String

-- ===== Link parsers (tunnels.py lines 122-559) =====

/-- `v == "s"` on a dynamic value. -/
def jeqStr (v : JVal) (s : String) : Bool :=
  match v with
  | .str t => t == s
  | _ => false

/-- The padding restoration the parsers apply before base64 decoding:
`padding = 4 - len(content) % 4; if padding != 4: content += '=' * padding`. -/
def b64pad (l : List Char) : List Char :=
  let padding := 4 - l.length % 4
  if padding ≠ 4 then l ++ List.replicate padding '=' else l

/-- `re.match(r'\[([^\]]+)\]:(\d+)', server_port)`: a prefix match of a
bracketed IPv6 host followed by a numeric port (trailing characters are
ignored, as with `re.match`). -/
def matchBracketHostPort (l : List Char) : Option (List Char × List Char) :=
  match l with
  | '[' :: rest =>
      let host := rest.takeWhile (fun c => c != ']')
      let rem := rest.dropWhile (fun c => c != ']')
      if host.isEmpty then none
      else
        match rem with
        | ']' :: ':' :: r2 =>
            let digits := r2.takeWhile Char.isDigit
            if digits.isEmpty then none else some (host, digits)
        | _ => none
  | _ => none

/-- Shared fragment step: `content.rsplit('#', 1)` with `unquote`, else the
protocol default name. -/
def splitFragment (content : List Char) (dfltName : String) : List Char × String :=
  if containsChar '#' content then
    match rsplitOnce '#' content with
    | some (c, n) => (c, String.mk (unquote n))
    | none => (content, dfltName)
  else (content, dfltName)

/-- Shared query step: `content.split('?', 1)` plus `dict(parse_qsl(...))`. -/
def splitQuery (content : List Char) : List Char × List (List Char × List Char) :=
  if containsChar '?' content then
    match splitOnce '?' content with
    | some (c, q) => (c, parseQsl q)
    | none => (content, [])
  else (content, [])

/-- Body of the `try` block of `parse_vless_link`; `.error` models an
exception reaching the `except` handler. -/
def parse_vless_body (gid : String) (link : String) : Except String (Option Tunnel) := do
  let content := link.data.drop 8
  let (content, name) := splitFragment content "VLESS Server"
  let (content, params) := splitQuery content
  if ¬ containsChar '@' content then return none
  let (user_uuid, server_port) ←
    match splitOnce '@' content with
    | some p => pure p
    | none => throw "ValueError"
  let (server, port) ←
    if startsWith ['['] server_port then
      match matchBracketHostPort server_port with
      | some p => pure p
      | none => return none
    else
      if containsChar ':' server_port then
        match rsplitOnce ':' server_port with
        | some p => pure p
        | none => throw "ValueError"
      else return none
  let portN ← pyIntOfChars port
  let security := qgetD params "security" "none"
  let tls : Dict :=
    if security == "reality" then
      [("enabled", .bool true), ("type", .str "reality"),
       ("server_name", .str (qgetD params "sni" "")),
       ("fingerprint", .str (qgetD params "fp" "chrome")),
       ("public_key", .str (qgetD params "pbk" "")),
       ("short_id", .str (qgetD params "sid" ""))]
    else if security == "tls" ∨ security == "xtls" then
      [("enabled", .bool true), ("type", .str security),
       ("server_name", .str (qgetD params "sni" (String.mk server))),
       ("fingerprint", .str (qgetD params "fp" "")),
       ("alpn", .arr (match qget params "alpn" with
         | some v => if v.isEmpty then [] else (splitAll ',' v).map (fun a => .str (String.mk a))
         | none => []))]
    else []
  let transport_type := qgetD params "type" "tcp"
  let transport : Dict :=
    if transport_type == "ws" then
      [("type", .str "ws"), ("path", .str (qgetD params "path" "/")),
       ("host", .str (qgetD params "host" (String.mk server)))]
    else if transport_type == "grpc" then
      [("type", .str "grpc"), ("service_name", .str (qgetD params "serviceName" ""))]
    else if transport_type == "tcp" then
      [("type", .str "tcp")]
    else []
  return some
    { id := gid, name := name, type := "vless", enabled := true,
      server := String.mk server, port := portN, source := "import",
      subscription_id := none, latency := none, last_check := none,
      settings :=
        [("uuid", .str (String.mk user_uuid)),
         ("flow", .str (qgetD params "flow" "")),
         ("encryption", .str (qgetD params "encryption" "none"))],
      tls := tls, transport := transport }

/-- `parse_vless_link`: prefix dispatch plus the `try`/`except` returning
`None` on any exception. -/
def parse_vless_link (gid : String) (link : String) : Option Tunnel :=
  if ¬ startsWith "vless://".data link.data then none
  else
    match parse_vless_body gid link with
    | .ok r => r
    | .error _ => none

/-- Body of the `try` block of `parse_vmess_link`. -/
def parse_vmess_body (gid : String) (link : String) : Except String (Option Tunnel) := do
  let content := b64pad (link.data.drop 8)
  let bytes ← b64decodePy content
  let decoded ← utf8Decode bytes
  let data ← jloads (String.mk decoded)
  let name ← asStr (← pyGetD data "ps" (.str "VMess Server"))
  let server ← asStr (← pyGetD data "add" (.str ""))
  let portN ← pyIntOfJVal (← pyGetD data "port" (.num 443))
  let alterId ← pyIntOfJVal (← pyGetD data "aid" (.num 0))
  let settings : Dict :=
    [("uuid", ← pyGetD data "id" (.str "")),
     ("alter_id", .num alterId),
     ("security", ← pyGetD data "scy" (.str "auto"))]
  let tlsVal ← pyGet data "tls"
  let tls : Dict ←
    if jeqStr tlsVal "tls" then do
      let alpnV ← pyGet data "alpn"
      let alpn : List JVal ←
        if pyTruthy alpnV then do
          let s ← asStr (← pyGetD data "alpn" (.str ""))
          pure ((splitAll ',' s.data).map (fun a => .str (String.mk a)))
        else pure []
      pure [("enabled", .bool true), ("type", .str "tls"),
            ("server_name", ← pyGetD data "sni" (← pyGetD data "host" (.str server))),
            ("alpn", .arr alpn)]
    else pure []
  let net ← pyGetD data "net" (.str "tcp")
  let transport : Dict ←
    if jeqStr net "ws" then do
      pure [("type", .str "ws"), ("path", ← pyGetD data "path" (.str "/")),
            ("host", ← pyGetD data "host" (.str server))]
    else if jeqStr net "grpc" then do
      pure [("type", .str "grpc"), ("service_name", ← pyGetD data "path" (.str ""))]
    else if jeqStr net "h2" then do
      pure [("type", .str "http"), ("path", ← pyGetD data "path" (.str "/")),
            ("host", .arr [← pyGetD data "host" (.str server)])]
    else pure [("type", .str "tcp")]
  return some
    { id := gid, name := name, type := "vmess", enabled := true,
      server := server, port := portN, source := "import",
      subscription_id := none, latency := none, last_check := none,
      settings := settings, tls := tls, transport := transport }

def parse_vmess_link (gid : String) (link : String) : Option Tunnel :=
  if ¬ startsWith "vmess://".data link.data then none
  else
    match parse_vmess_body gid link with
    | .ok r => r
    | .error _ => none

/-- Body of the `try` block of `parse_ss_link` (SIP002 and legacy). -/
def parse_ss_body (gid : String) (link : String) : Except String (Option Tunnel) := do
  let content := link.data.drop 5
  let (content, name) := splitFragment content "Shadowsocks Server"
  if containsChar '@' content then do
    let (user_info, server_port) ←
      match rsplitOnce '@' content with
      | some p => pure p
      | none => throw "ValueError"
    -- inner try: base64 user info, already-decoded fallback
    let decAttempt : Except String (List Char × List Char) := do
      let bytes ← urlsafeB64decodePy (b64pad user_info)
      let cs ← utf8Decode bytes
      match splitOnce ':' cs with
      | some p => pure p
      | none => throw "ValueError"
    let (method, password) ←
      match decAttempt with
      | .ok p => pure p
      | .error _ =>
          match splitOnce ':' user_info with
          | some p => pure p
          | none => throw "ValueError"
    let (server, port) ←
      if startsWith ['['] server_port then
        match matchBracketHostPort server_port with
        | some p => pure p
        | none => return none
      else
        match rsplitOnce ':' server_port with
        | some p => pure p
        | none => throw "ValueError"
    let portN ← pyIntOfChars port
    return some
      { id := gid, name := name, type := "shadowsocks", enabled := true,
        server := String.mk server, port := portN, source := "import",
        subscription_id := none, latency := none, last_check := none,
        settings :=
          [("method", .str (String.mk method)), ("password", .str (String.mk password))],
        tls := [], transport := [] }
  else do
    let bytes ← urlsafeB64decodePy (b64pad content)
    let decoded ← utf8Decode bytes
    let (method_pass, server_port) ←
      match rsplitOnce '@' decoded with
      | some p => pure p
      | none => throw "ValueError"
    let (method, password) ←
      match splitOnce ':' method_pass with
      | some p => pure p
      | none => throw "ValueError"
    let (server, port) ←
      match rsplitOnce ':' server_port with
      | some p => pure p
      | none => throw "ValueError"
    let portN ← pyIntOfChars port
    return some
      { id := gid, name := name, type := "shadowsocks", enabled := true,
        server := String.mk server, port := portN, source := "import",
        subscription_id := none, latency := none, last_check := none,
        settings :=
          [("method", .str (String.mk method)), ("password", .str (String.mk password))],
        tls := [], transport := [] }

def parse_ss_link (gid : String) (link : String) : Option Tunnel :=
  if ¬ startsWith "ss://".data link.data then none
  else
    match parse_ss_body gid link with
    | .ok r => r
    | .error _ => none

/-- Body of the `try` block of `parse_trojan_link`. -/
def parse_trojan_body (gid : String) (link : String) : Except String (Option Tunnel) := do
  let content := link.data.drop 9
  let (content, name) := splitFragment content "Trojan Server"
  let (content, params) := splitQuery content
  let (password, server_port) ←
    match rsplitOnce '@' content with
    | some p => pure p
    | none => throw "ValueError"
  let (server, port) ←
    if startsWith ['['] server_port then
      match matchBracketHostPort server_port with
      | some p => pure p
      | none => return none
    else
      match rsplitOnce ':' server_port with
      | some p => pure p
      | none => throw "ValueError"
  let portN ← pyIntOfChars port
  let transport_type := qgetD params "type" "tcp"
  let transport : Dict :=
    if transport_type == "ws" then
      [("type", .str "ws"), ("path", .str (qgetD params "path" "/")),
       ("host", .str (qgetD params "host" (String.mk server)))]
    else if transport_type == "grpc" then
      [("type", .str "grpc"), ("service_name", .str (qgetD params "serviceName" ""))]
    else [("type", .str "tcp")]
  return some
    { id := gid, name := name, type := "trojan", enabled := true,
      server := String.mk server, port := portN, source := "import",
      subscription_id := none, latency := none, last_check := none,
      settings := [("password", .str (String.mk password))],
      tls :=
        [("enabled", .bool true), ("type", .str "tls"),
         ("server_name", .str (qgetD params "sni" (String.mk server))),
         ("alpn", .arr (match qget params "alpn" with
           | some v => if v.isEmpty then []
                       else (splitAll ',' v).map (fun a => .str (String.mk a))
           | none => []))],
      transport := transport }

def parse_trojan_link (gid : String) (link : String) : Option Tunnel :=
  if ¬ startsWith "trojan://".data link.data then none
  else
    match parse_trojan_body gid link with
    | .ok r => r
    | .error _ => none

/-- Body of the `try` block of `parse_hysteria2_link` (operating on the
content after the scheme prefix, which is stripped outside the `try`). -/
def parse_hysteria2_body (gid : String) (content0 : List Char) :
    Except String (Option Tunnel) := do
  let (content, name) := splitFragment content0 "Hysteria2 Server"
  let (content, params) := splitQuery content
  let (password, server_port) ←
    if containsChar '@' content then
      match rsplitOnce '@' content with
      | some p => pure p
      | none => throw "ValueError"
    else pure ([], content)
  let (server, port) ←
    if startsWith ['['] server_port then
      match matchBracketHostPort server_port with
      | some p => pure p
      | none => return none
    else
      match rsplitOnce ':' server_port with
      | some p => pure p
      | none => throw "ValueError"
  let portN ← pyIntOfChars port
  let up : JVal ←
    match qget params "up" with
    | some v => if v.isEmpty then pure .null else do pure (.num (← pyIntOfChars v))
    | none => pure .null
  let down : JVal ←
    match qget params "down" with
    | some v => if v.isEmpty then pure .null else do pure (.num (← pyIntOfChars v))
    | none => pure .null
  return some
    { id := gid, name := name, type := "hysteria2", enabled := true,
      server := String.mk server, port := portN, source := "import",
      subscription_id := none, latency := none, last_check := none,
      settings :=
        [("password", .str (String.mk password)),
         ("obfs_type", .str (qgetD params "obfs" "")),
         ("obfs_password", .str (qgetD params "obfs-password" "")),
         ("up_mbps", up), ("down_mbps", down)],
      tls :=
        [("enabled", .bool true), ("type", .str "tls"),
         ("server_name", .str (qgetD params "sni" (String.mk server))),
         ("insecure", .bool (qgetD params "insecure" "0" == "1"))],
      transport := [] }

def parse_hysteria2_link (gid : String) (link : String) : Option Tunnel :=
  if startsWith "hysteria2://".data link.data then
    match parse_hysteria2_body gid (link.data.drop 12) with
    | .ok r => r
    | .error _ => none
  else if startsWith "hy2://".data link.data then
    match parse_hysteria2_body gid (link.data.drop 6) with
    | .ok r => r
    | .error _ => none
  else none

/-- `parse_share_link`: strip, then dispatch on the scheme prefix. -/
def parse_share_link (gid : String) (link : String) : Option Tunnel :=
  let s := String.mk (pyStrip link.data)
  if startsWith "vless://".data s.data then parse_vless_link gid s
  else if startsWith "vmess://".data s.data then parse_vmess_link gid s
  else if startsWith "ss://".data s.data then parse_ss_link gid s
  else if startsWith "trojan://".data s.data then parse_trojan_link gid s
  else if startsWith "hy2://".data s.data ∨ startsWith "hysteria2://".data s.data then
    parse_hysteria2_link gid s
  else none

-- ===== Subscription parsers (tunnels.py lines 564-840) =====

/-- The common line loop: strip each line, skip empty lines, collect the
tunnels `parse_share_link` accepts.  The id supply is indexed by line
position. -/
def parseShareLines (gids : Nat → String) (lines : List (List Char)) : List Tunnel :=
  lines.enum.foldl (fun acc p =>
    let line := pyStrip p.2
    if line.isEmpty then acc
    else
      match parse_share_link (gids p.1) (String.mk line) with
      | some t => acc ++ [t]
      | none => acc) []

/-- `parse_base64_subscription`: restore padding, base64-decode, UTF-8
decode, then feed each line to the link parser; any decode exception is
caught and yields the tunnels collected so far (necessarily none, as the
loop itself cannot raise). -/
def parse_base64_subscription (gids : Nat → String) (content : String) : List Tunnel :=
  match (do
      let bytes ← b64decodePy (b64pad content.data)
      utf8Decode bytes : Except String (List Char)) with
  | .error _ => []
  | .ok decoded => parseShareLines gids (splitAll '\n' (pyStrip decoded))

/-- The per-entry fields of the tunnel dict a subscription parser builds;
the remaining fields of the literal are constants shared by every entry
(`enabled: True`, `source: SUBSCRIPTION`, `subscription_id: None`,
`latency: None`, `last_check: None`). -/
structure TunnelCore where
  name : String
  ttype : String
  server : String
  port : Int
  settings : Dict
  tls : Dict
  transport : Dict

/-- Assemble the subscription-parser tunnel literal from its per-entry
fields. -/
def subscriptionTunnel (gid : String) (c : TunnelCore) : Tunnel :=
  { id := gid, name := c.name, type := c.ttype, enabled := true,
    server := c.server, port := c.port, source := "subscription",
    subscription_id := none, latency := none, last_check := none,
    settings := c.settings, tls := c.tls, transport := c.transport }

/-- One iteration of the Clash proxy loop: `.ok none` models `continue`,
`.error` an exception (which aborts the loop, keeping the tunnels already
collected). -/
def clashProxyCore (proxy : JVal) : Except String (Option TunnelCore) := do
  let typeV ← pyGetD proxy "type" (.str "")
  let tstr ← asStr typeV
  let proxy_type := String.mk (lowerStr tstr.data)
  let name ← asStr (← pyGetD proxy "name" (.str "Proxy"))
  let server ← asStr (← pyGetD proxy "server" (.str ""))
  let portN ← pyIntOfJVal (← pyGetD proxy "port" (.num 443))
  let typed : Option (String × Dict) ←
    if proxy_type == "vless" then do
      pure (some ("vless",
        [("uuid", ← pyGetD proxy "uuid" (.str "")),
         ("flow", ← pyGetD proxy "flow" (.str "")),
         ("encryption", .str "none")]))
    else if proxy_type == "vmess" then do
      let alterId ← pyIntOfJVal (← pyGetD proxy "alterId" (.num 0))
      pure (some ("vmess",
        [("uuid", ← pyGetD proxy "uuid" (.str "")),
         ("alter_id", .num alterId),
         ("security", ← pyGetD proxy "cipher" (.str "auto"))]))
    else if proxy_type == "ss" ∨ proxy_type == "shadowsocks" then do
      pure (some ("shadowsocks",
        [("method", ← pyGetD proxy "cipher" (.str "")),
         ("password", ← pyGetD proxy "password" (.str ""))]))
    else if proxy_type == "trojan" then do
      pure (some ("trojan", [("password", ← pyGetD proxy "password" (.str ""))]))
    else if proxy_type == "hysteria2" then do
      pure (some ("hysteria2",
        [("password", ← pyGetD proxy "password" (.str "")),
         ("obfs_type", ← pyGetD proxy "obfs" (.str "")),
         ("obfs_password", ← pyGetD proxy "obfs-password" (.str ""))]))
    else pure none
  match typed with
  | none => return none
  | some (ttype, settings) => do
      let tlsFlag ← pyGet proxy "tls"
      let tls0 : Dict ←
        if pyTruthy tlsFlag then do
          pure [("enabled", .bool true), ("type", .str "tls"),
                ("server_name",
                  ← pyGetD proxy "sni" (← pyGetD proxy "servername" (.str server))),
                ("skip_verify", ← pyGetD proxy "skip-cert-verify" (.bool false))]
        else pure []
      let realityOpts ← pyGet proxy "reality-opts"
      let tls : Dict ←
        if pyTruthy realityOpts then do
          pure [("enabled", .bool true), ("type", .str "reality"),
                ("server_name",
                  ← pyGetD proxy "sni" (← pyGetD proxy "servername" (.str ""))),
                ("fingerprint", ← pyGetD proxy "client-fingerprint" (.str "chrome")),
                ("public_key", ← pyGetD realityOpts "public-key" (.str "")),
                ("short_id", ← pyGetD realityOpts "short-id" (.str ""))]
        else pure tls0
      let network ← pyGetD proxy "network" (.str "tcp")
      let transport : Dict ←
        if jeqStr network "ws" then do
          let ws_opts ← pyGetD proxy "ws-opts" (.obj [])
          pure [("type", .str "ws"),
                ("path", ← pyGetD ws_opts "path" (.str "/")),
                ("host",
                  ← pyGetD (← pyGetD ws_opts "headers" (.obj [])) "Host" (.str server))]
        else if jeqStr network "grpc" then do
          let grpc_opts ← pyGetD proxy "grpc-opts" (.obj [])
          pure [("type", .str "grpc"),
                ("service_name", ← pyGetD grpc_opts "grpc-service-name" (.str ""))]
        else pure [("type", .str "tcp")]
      return some
        { name := name, ttype := ttype, server := server, port := portN,
          settings := settings, tls := tls, transport := transport }

def clashProxyStep (gid : String) (proxy : JVal) : Except String (Option Tunnel) :=
  (clashProxyCore proxy).map (fun o => o.map (subscriptionTunnel gid))

/-- Fold a per-entry step over the entries, keeping partial results when an
entry raises (the `except` handler falls through to `return tunnels`). -/
def collectSteps (step : Nat → JVal → Except String (Option Tunnel)) :
    List JVal → Nat → List Tunnel → List Tunnel
  | [], _, acc => acc
  | x :: rest, i, acc =>
      match step i x with
      | .error _ => acc
      | .ok none => collectSteps step rest (i + 1) acc
      | .ok (some t) => collectSteps step rest (i + 1) (acc ++ [t])

/-- `parse_clash_subscription`, parameterised by the YAML loader
(`yaml.safe_load` is not modelled); a loader error models both a YAML
parse failure and the `ImportError` branch. -/
def parse_clash_subscription (yload : String → Except String JVal)
    (gids : Nat → String) (content : String) : List Tunnel :=
  match (do
      let data ← yload content
      let proxiesV ← pyGetD data "proxies" (.arr [])
      asArr proxiesV : Except String (List JVal)) with
  | .error _ => []
  | .ok proxies => collectSteps (fun i p => clashProxyStep (gids i) p) proxies 0 []

/-- One iteration of the sing-box outbound loop. -/
def singboxOutboundCore (ob : JVal) : Except String (Option TunnelCore) := do
  let obTypeV ← pyGetD ob "type" (.str "")
  if jeqStr obTypeV "direct" ∨ jeqStr obTypeV "block" ∨ jeqStr obTypeV "dns" ∨
      jeqStr obTypeV "selector" ∨ jeqStr obTypeV "urltest" then
    return none
  else do
    let name ← asStr (← pyGetD ob "tag" obTypeV)
    let server ← asStr (← pyGetD ob "server" (.str ""))
    let portN ← pyIntOfJVal (← pyGetD ob "server_port" (.num 443))
    let typed : Option (String × Dict) ←
      if jeqStr obTypeV "vless" then do
        pure (some ("vless",
          [("uuid", ← pyGetD ob "uuid" (.str "")),
           ("flow", ← pyGetD ob "flow" (.str "")),
           ("encryption", .str "none")]))
      else if jeqStr obTypeV "vmess" then do
        let alterId ← pyIntOfJVal (← pyGetD ob "alter_id" (.num 0))
        pure (some ("vmess",
          [("uuid", ← pyGetD ob "uuid" (.str "")),
           ("alter_id", .num alterId),
           ("security", ← pyGetD ob "security" (.str "auto"))]))
      else if jeqStr obTypeV "shadowsocks" then do
        pure (some ("shadowsocks",
          [("method", ← pyGetD ob "method" (.str "")),
           ("password", ← pyGetD ob "password" (.str ""))]))
      else if jeqStr obTypeV "trojan" then do
        pure (some ("trojan", [("password", ← pyGetD ob "password" (.str ""))]))
      else if jeqStr obTypeV "hysteria2" then do
        let obfsV ← pyGet ob "obfs"
        let obfsType ← if pyTruthy obfsV then pyGetD obfsV "type" (.str "") else pure (.str "")
        let obfsPassword ←
          if pyTruthy obfsV then pyGetD obfsV "password" (.str "") else pure (.str "")
        pure (some ("hysteria2",
          [("password", ← pyGetD ob "password" (.str "")),
           ("obfs_type", obfsType),
           ("obfs_password", obfsPassword),
           ("up_mbps", ← pyGet ob "up_mbps"),
           ("down_mbps", ← pyGet ob "down_mbps")]))
      else pure none
    match typed with
    | none => return none
    | some (ttype, settings) => do
        let tlsV ← pyGetD ob "tls" (.obj [])
        let tls : Dict ←
          if pyTruthy tlsV then do
            let realityV ← pyGetD tlsV "reality" (.obj [])
            if pyTruthy (← pyGet realityV "enabled") then do
              pure [("enabled", .bool true), ("type", .str "reality"),
                    ("server_name", ← pyGetD tlsV "server_name" (.str "")),
                    ("fingerprint",
                      ← pyGetD (← pyGetD tlsV "utls" (.obj [])) "fingerprint" (.str "chrome")),
                    ("public_key", ← pyGetD realityV "public_key" (.str "")),
                    ("short_id", ← pyGetD realityV "short_id" (.str ""))]
            else do
              pure [("enabled", ← pyGetD tlsV "enabled" (.bool false)),
                    ("type", .str "tls"),
                    ("server_name", ← pyGetD tlsV "server_name" (.str server)),
                    ("insecure", ← pyGetD tlsV "insecure" (.bool false)),
                    ("alpn", ← pyGetD tlsV "alpn" (.arr []))]
          else pure []
        let trV ← pyGetD ob "transport" (.obj [])
        let transport : Dict ←
          if pyTruthy trV then do
            let tType ← pyGetD trV "type" (.str "tcp")
            if jeqStr tType "ws" then do
              pure [("type", .str "ws"),
                    ("path", ← pyGetD trV "path" (.str "/")),
                    ("host",
                      ← pyGetD (← pyGetD trV "headers" (.obj [])) "Host" (.str server))]
            else if jeqStr tType "grpc" then do
              pure [("type", .str "grpc"),
                    ("service_name", ← pyGetD trV "service_name" (.str ""))]
            else pure [("type", tType)]
          else pure [("type", .str "tcp")]
        return some
          { name := name, ttype := ttype, server := server, port := portN,
            settings := settings, tls := tls, transport := transport }

def singboxOutboundStep (gid : String) (ob : JVal) : Except String (Option Tunnel) :=
  (singboxOutboundCore ob).map (fun o => o.map (subscriptionTunnel gid))

/-- `parse_singbox_subscription`. -/
def parse_singbox_subscription (gids : Nat → String) (content : String) : List Tunnel :=
  match (do
      let data ← jloads content
      let obsV ← pyGetD data "outbounds" (.arr [])
      asArr obsV : Except String (List JVal)) with
  | .error _ => []
  | .ok outbounds => collectSteps (fun i ob => singboxOutboundStep (gids i) ob) outbounds 0 []

/-- `parse_subscription_content`: strip, dispatch on the hint and content
shape, try base64 first, then raw share links. -/
def parse_subscription_content (yload : String → Except String JVal)
    (gids : Nat → String) (content : String) (format_hint : String) : List Tunnel :=
  let c := pyStrip content.data
  let s := String.mk c
  if format_hint == "singbox" ∨ (format_hint == "auto" ∧ startsWith [lbrace] c) then
    parse_singbox_subscription gids s
  else if format_hint == "clash" ∨ (format_hint == "auto" ∧ startsWith "proxies:".data c) then
    parse_clash_subscription yload gids s
  else
    let tunnels := parse_base64_subscription gids s
    if ¬ tunnels.isEmpty then tunnels
    else parseShareLines gids (splitAll '\n' c)

-- ===== Sing-box config generator (tunnels.py lines 845-1070) =====

/-- The generated tag of a tunnel outbound. -/
def tunnelTag (t : Tunnel) : String :=
  t.type ++ "-" ++ t.id

/-- `generate_tunnel_outbound`. -/
def generate_tunnel_outbound (tunnel : Tunnel) : Dict :=
  let t_type := tunnel.type
  let settings := tunnel.settings
  let tls_config := tunnel.tls
  let transport := tunnel.transport
  let outbound : Dict :=
    [("type", .str t_type), ("tag", .str (tunnelTag tunnel)),
     ("server", .str tunnel.server), ("server_port", .num tunnel.port)]
  let outbound :=
    if t_type == "vless" then
      let ob := dset outbound "uuid" (dgetD settings "uuid" (.str ""))
      if pyTruthy (dgetD settings "flow" .null) then
        dset ob "flow" (dgetD settings "flow" .null)
      else ob
    else if t_type == "vmess" then
      dset (dset (dset outbound "uuid" (dgetD settings "uuid" (.str "")))
        "alter_id" (dgetD settings "alter_id" (.num 0)))
        "security" (dgetD settings "security" (.str "auto"))
    else if t_type == "shadowsocks" then
      dset (dset outbound "method" (dgetD settings "method" (.str "")))
        "password" (dgetD settings "password" (.str ""))
    else if t_type == "trojan" then
      dset outbound "password" (dgetD settings "password" (.str ""))
    else if t_type == "hysteria2" then
      let ob := dset outbound "password" (dgetD settings "password" (.str ""))
      let ob :=
        if pyTruthy (dgetD settings "obfs_type" .null) then
          dset ob "obfs" (.obj
            [("type", dgetD settings "obfs_type" .null),
             ("password", dgetD settings "obfs_password" (.str ""))])
        else ob
      let ob :=
        if pyTruthy (dgetD settings "up_mbps" .null) then
          dset ob "up_mbps" (dgetD settings "up_mbps" .null)
        else ob
      if pyTruthy (dgetD settings "down_mbps" .null) then
        dset ob "down_mbps" (dgetD settings "down_mbps" .null)
      else ob
    else outbound
  let outbound :=
    if pyTruthy (dgetD tls_config "enabled" .null) then
      let tls : Dict := [("enabled", .bool true)]
      let tls :=
        if jeqStr (dgetD tls_config "type" .null) "reality" then
          dset (dset (dset tls
            "server_name" (dgetD tls_config "server_name" (.str "")))
            "utls" (.obj [("enabled", .bool true),
                          ("fingerprint", dgetD tls_config "fingerprint" (.str "chrome"))]))
            "reality" (.obj [("enabled", .bool true),
                             ("public_key", dgetD tls_config "public_key" (.str "")),
                             ("short_id", dgetD tls_config "short_id" (.str ""))])
        else
          let tls := dset tls "server_name" (dgetD tls_config "server_name" (.str tunnel.server))
          let tls :=
            if pyTruthy (dgetD tls_config "insecure" .null) then
              dset tls "insecure" (.bool true)
            else tls
          let tls :=
            if pyTruthy (dgetD tls_config "alpn" .null) then
              dset tls "alpn" (dgetD tls_config "alpn" .null)
            else tls
          if pyTruthy (dgetD tls_config "fingerprint" .null) then
            dset tls "utls" (.obj [("enabled", .bool true),
                                   ("fingerprint", dgetD tls_config "fingerprint" .null)])
          else tls
      dset outbound "tls" (.obj tls)
    else outbound
  let tv := dgetD transport "type" .null
  if pyTruthy tv ∧ ¬ jeqStr tv "tcp" then
    let t : Dict := [("type", tv)]
    let t :=
      if jeqStr tv "ws" then
        let t := dset t "path" (dgetD transport "path" (.str "/"))
        if pyTruthy (dgetD transport "host" .null) then
          dset t "headers" (.obj [("Host", dgetD transport "host" .null)])
        else t
      else if jeqStr tv "grpc" then
        dset t "service_name" (dgetD transport "service_name" (.str ""))
      else t
    dset outbound "transport" (.obj t)
  else outbound

/-- The member-tag list the group loop collects: for each member id, the
tag of the first enabled tunnel carrying that id. -/
def groupMemberTags (group : TunnelGroup) (tunnels : List Tunnel) : List String :=
  group.tunnels.foldl (fun acc t_id =>
    match tunnels.find? (fun t => t.id == t_id && t.enabled) with
    | some t => acc ++ [tunnelTag t]
    | none => acc) []

/-- `generate_group_outbound`. -/
def generate_group_outbound (group : TunnelGroup) (tunnels : List Tunnel) : Dict :=
  let tunnel_tags := groupMemberTags group tunnels
  let tagStr := group.tag.getD ("group-" ++ group.id)
  if group.type == "urltest" then
    [("type", .str "urltest"), ("tag", .str tagStr),
     ("outbounds", .arr (tunnel_tags.map .str)),
     ("url", .str "https://www.gstatic.com/generate_204"),
     ("interval", .str (group.interval.getD "5m")),
     ("tolerance", .num (group.tolerance.getD 50))]
  else if group.type == "fallback" then
    [("type", .str "urltest"), ("tag", .str tagStr),
     ("outbounds", .arr (tunnel_tags.map .str)),
     ("url", .str "https://www.gstatic.com/generate_204"),
     ("interval", .str (group.interval.getD "1m"))]
  else
    [("type", .str "selector"), ("tag", .str tagStr),
     ("outbounds", .arr (tunnel_tags.map .str)),
     ("default", .str (tunnel_tags.headD "direct-out"))]

/-- The `outbounds` array after the tunnel and group append loops: the
direct outbound, one outbound per enabled tunnel, and one per group whose
`outbounds` member list is truthy (non-empty). -/
def configOutbounds (tunnels : List Tunnel) (groups : List TunnelGroup) : List JVal :=
  .obj [("type", .str "direct"), ("tag", .str "direct-out")] ::
    (tunnels.filter (fun t => t.enabled)).map (fun t => .obj (generate_tunnel_outbound t)) ++
    ((groups.map (fun g => generate_group_outbound g tunnels)).filter
      (fun ob => pyTruthy (dgetD ob "outbounds" .null))).map .obj

/-- The valid-outbound-tag set derived from the assembled outbounds. -/
def validTags (tunnels : List Tunnel) (groups : List TunnelGroup) : List String :=
  (configOutbounds tunnels groups).filterMap (fun ob =>
    match ob with
    | .obj d =>
        match dget d "tag" with
        | some (.str s) => some s
        | _ => none
    | _ => none)

/-- The `singbox_rule` dict built for one routing rule that passed the
enabled/valid-tag checks. -/
def ruleDict (rule : RoutingRule) (outbound_tag : String) : Dict :=
  let processed := rule.domains.map (fun d => lowerStr (pyStrip d.data))
  let domains := (processed.filter (fun d =>
    ¬ startsWith "*.".data d ∧ ¬ startsWith ".".data d)).map String.mk
  let domain_suffixes := processed.filterMap (fun d =>
    if startsWith "*.".data d then some (String.mk (d.drop 2))
    else if startsWith ".".data d then some (String.mk (d.drop 1))
    else none)
  let sr : Dict := [("outbound", .str outbound_tag)]
  let sr := if ¬ domains.isEmpty then dset sr "domain" (.arr (domains.map .str)) else sr
  let sr :=
    if ¬ domain_suffixes.isEmpty then
      dset sr "domain_suffix" (.arr (domain_suffixes.map .str))
    else sr
  if ¬ rule.domain_keywords.isEmpty then
    dset sr "domain_keyword" (.arr (rule.domain_keywords.map .str))
  else sr

/-- `config["route"]["rules"].append(r)`: a `KeyError` when the `route`
dict has no `rules` key (the base config is built without one). -/
def routeRulesAppend (cfg : Dict) (r : JVal) : Except String Dict :=
  match dget cfg "route" with
  | some (.obj routeD) =>
      match dget routeD "rules" with
      | some (.arr rs) => .ok (dset cfg "route" (.obj (dset routeD "rules" (.arr (rs ++ [r])))))
      | some _ => .error "TypeError: append"
      | none => .error "KeyError: rules"
  | _ => .error "KeyError: route"

/-- The fixed base config (`tunnels.py` lines 971-991); the `route` dict
carries only `auto_detect_interface`. -/
def baseConfig : Dict :=
  [("log", .obj [("level", .str "info")]),
   ("inbounds", .arr
     [.obj [("type", .str "tun"), ("tag", .str "tun-in"),
            ("interface_name", .str "tun1"), ("inet4_address", .str "10.0.0.1/30"),
            ("mtu", .num 1400), ("auto_route", .bool false),
            ("sniff", .bool true), ("stack", .str "gvisor")]]),
   ("outbounds", .arr [.obj [("type", .str "direct"), ("tag", .str "direct-out")]]),
   ("route", .obj [("auto_detect_interface", .bool true)])]

/-- `generate_singbox_config`; `.error` models an uncaught exception. -/
def generate_singbox_config (tunnels : List Tunnel) (groups : List TunnelGroup)
    (active_outbound : Option String) (routing_rules : Option RoutingRules) :
    Except String Dict := do
  let enabled_tunnels := tunnels.filter (fun t => t.enabled)
  let config := dset baseConfig "outbounds" (.arr (configOutbounds tunnels groups))
  let valid_tags := validTags tunnels groups
  let config ←
    match routing_rules with
    | some rr =>
        if ¬ rr.rules.isEmpty then
          rr.rules.foldlM (fun cfg rule => do
            if ¬ rule.enabled then pure cfg
            else
              match rule.outbound with
              | none => pure cfg
              | some tag =>
                  if tag == "" ∨ ¬ valid_tags.contains tag then pure cfg
                  else
                    let sr := ruleDict rule tag
                    if sr.length > 1 then routeRulesAppend cfg (.obj sr) else pure cfg)
            config
        else pure config
    | none => pure config
  let rrDefault : Option String :=
    match routing_rules with
    | some rr =>
        match rr.default_outbound with
        | some d => if d == "" then none else some d
        | none => none
    | none => none
  let default_outbound : Option String :=
    match rrDefault with
    | some d => some d
    | none =>
        match active_outbound with
        | some a => if a == "" then none else some a
        | none => none
  match default_outbound with
  | some d =>
      if valid_tags.contains d then
        routeRulesAppend config (.obj [("inbound", .arr [.str "tun-in"]), ("outbound", .str d)])
      else
        match enabled_tunnels with
        | t :: _ =>
            routeRulesAppend config
              (.obj [("inbound", .arr [.str "tun-in"]), ("outbound", .str (tunnelTag t))])
        | [] => pure config
  | none =>
      match enabled_tunnels with
      | t :: _ =>
          routeRulesAppend config
            (.obj [("inbound", .arr [.str "tun-in"]), ("outbound", .str (tunnelTag t))])
      | [] => pure config

-- ===== Config apply engine (tunnels.py lines 1073-1103) =====

/-- The two files `apply_singbox_config` manipulates: the daemon config at
its fixed path and the single backup copy; `none` means the file does not
exist. -/
structure FsState where
  config : Option Dict
  backup : Option Dict

/-- Outcomes of the fallible external steps of `apply_singbox_config`:
whether each `shutil.copy` / file write raises, and the restart result
(`.error` models `subprocess` raising, e.g. a timeout; `.ok code` a
completed restart with that exit code). -/
structure ApplyOracle where
  backupCopyRaises : Bool
  writeRaises : Bool
  restart : Except Unit Int
  restoreCopyRaises : Bool

/-- `apply_singbox_config`: back up the existing config if present, write
the new one, restart the daemon and report `returncode == 0`; on an
exception, restore the backup over the config path when a backup file
exists and return `False`.  The restore `shutil.copy` sits inside the
`except` handler with no further guard, so its own failure escapes the
function (`.error`).  A failing write is modelled as leaving the previous
file content. -/
def apply_singbox_config (o : ApplyOracle) (config : Dict) (st : FsState) :
    FsState × Except String Bool :=
  let afterBackup : FsState × Option String :=
    if st.config.isSome then
      if o.backupCopyRaises then (st, some "copy failed")
      else ({ st with backup := st.config }, none)
    else (st, none)
  let attempt : FsState × Except String Int :=
    match afterBackup with
    | (st1, some e) => (st1, .error e)
    | (st1, none) =>
        if o.writeRaises then (st1, .error "write failed")
        else
          let st2 := { st1 with config := some config }
          match o.restart with
          | .error _ => (st2, .error "TimeoutExpired")
          | .ok code => (st2, .ok code)
  match attempt with
  | (st2, .ok code) => (st2, .ok (code == 0))
  | (st2, .error _) =>
      if st2.backup.isSome then
        if o.restoreCopyRaises then (st2, .error "exception escaped the except handler")
        else ({ st2 with config := st2.backup }, .ok false)
      else (st2, .ok false)

-- ===== Subscription deletion (main.py delete_subscription) =====

/-- `delete_subscription`: drop the subscription record and every tunnel
whose `subscription_id` equals the deleted id (`t.get("subscription_id")
!= sub_id` keeps tunnels with a different or absent id). -/
def delete_subscription (subs : List Subscription) (tunnels : List Tunnel)
    (sub_id : String) : List Subscription × List Tunnel :=
  (subs.filter (fun s => s.id != sub_id),
   tunnels.filter (fun t => t.subscription_id != some sub_id))

-- ===== Device routing rule compiler (pinpoint-update.py lines 426-609) =====

/-- The semantic content of one `nft` rule in the `prerouting` chain:
mark all packets from a source, mark packets from a source whose
destination is in a named set, return early for a source, or any foreign
rule (one not produced by this compiler). -/
inductive RuleBody where
  | markAll (saddr : String)
  | markDaddrSet (saddr : String) (setName : String)
  | ret (saddr : String)
  | other (text : String)
deriving DecidableEq

structure NftRule where
  body : RuleBody
  comment : String
deriving DecidableEq

/-- The nft state the compiler manipulates: the `prerouting` chain rules
with their kernel-assigned handles, the named sets of the `pinpoint`
table with their elements, and the next free handle. -/
structure NftState where
  rules : List (Nat × NftRule)
  sets : List (String × List String)
  next : Nat

/-- A service record (`services.json` fields the compiler reads). -/
structure Service where
  id : String
  domains : List String
  custom_domains : List String
  custom_ips : List String
deriving DecidableEq

/-- A device record (`devices.json` fields the compiler reads). -/
structure Device where
  id : String
  name : String
  ip : String
  mode : String
  services : List String
  custom_domains : List String
  custom_ips : List String
  enabled : Bool
deriving DecidableEq

/-- The comment marker the cleanup pass scans for. -/
def deviceRuleMarker : String := "pinpoint: device"

/-- `needle in haystack` on character lists (Python substring test). -/
def listIsInfixOf (needle : List Char) : List Char → Bool
  | [] => needle.isEmpty
  | h :: t => needle.isPrefixOf (h :: t) || listIsInfixOf needle t

def containsMarker (c : String) : Bool :=
  listIsInfixOf deviceRuleMarker.data c.data

def vpnAllComment (id : String) : String := deviceRuleMarker ++ " " ++ id ++ " vpn_all"

def directAllComment (id : String) : String := deviceRuleMarker ++ " " ++ id ++ " direct_all"

def customComment (id : String) : String := deviceRuleMarker ++ " " ++ id ++ " custom"

def skipGlobalComment (id : String) : String := deviceRuleMarker ++ " " ++ id ++ " skip global"

/-- `nft delete rule ... handle h`: removes the rule with that handle. -/
def deleteHandle (rules : List (Nat × NftRule)) (h : Nat) : List (Nat × NftRule) :=
  rules.filter (fun r => r.1 != h)

/-- `clean_device_rules`: collect the handles of the rules whose listing
line carries the `pinpoint: device` comment marker, delete them in reverse
order, and delete every set whose listing line matches `set device_`. -/
def clean_device_rules (st : NftState) : NftState :=
  let handles_to_delete :=
    (st.rules.filter (fun r => containsMarker r.2.comment)).map (fun r => r.1)
  let rules := handles_to_delete.reverse.foldl deleteHandle st.rules
  let sets := st.sets.filter (fun s => !("device_".data.isPrefixOf s.1.data))
  { rules := rules, sets := sets, next := st.next }

/-- Ordered set union: append the elements of `xs` not yet present (the
model of the Python `set.update` accumulation; iteration order of the
resulting set is abstracted to insertion order). -/
def dedupAppend (acc : List String) (xs : List String) : List String :=
  xs.foldl (fun a x => if a.contains x then a else a ++ [x]) acc

/-- `services_data` dict lookup: later records with a duplicate id
overwrite earlier ones. -/
def servicesLookup (services : List Service) (sid : String) : Option Service :=
  services.reverse.find? (fun s => s.id == sid)

/-- The rules applied from the generated `add rule` lines: one mark-all
rule per `vpn_all` device and one return rule per `direct_all` device, in
device order. -/
def deviceSimpleRules (enabled_devices : List Device) : List NftRule :=
  enabled_devices.filterMap (fun d =>
    if d.mode == "vpn_all" then
      some { body := .markAll d.ip, comment := vpnAllComment d.id }
    else if d.mode == "direct_all" then
      some { body := .ret d.ip, comment := directAllComment d.id }
    else none)

/-- One `device_sets` entry for a custom-mode device. -/
structure DeviceSetEntry where
  device_id : String
  set_name : String
  ip : String
  name : String
  domains : List String
  cidrs : List String
deriving DecidableEq

/-- The `device_sets` entry a custom-mode device contributes: the union of
its own custom domains/IPs with each associated service's domains, custom
domains, custom IPs and downloaded CIDR list (stripped non-empty lines of
`LISTS_DIR/{svc}.txt`; a missing file contributes nothing).  The entry is
kept only when there is at least one domain, CIDR or associated
service. -/
def customEntryFor (services : List Service) (listFiles : String → List String)
    (d : Device) : Option DeviceSetEntry :=
  if d.mode == "custom" then
    let set_name :=
      "device_" ++ String.mk (d.id.data.map (fun c => if c == '-' then '_' else c))
    let init : List String × List String :=
      (dedupAppend [] d.custom_domains, dedupAppend [] d.custom_ips)
    let collected := d.services.foldl (fun (p : List String × List String) svc_id =>
      let fileCidrs :=
        ((listFiles svc_id).map (fun l => String.mk (pyStrip l.data))).filter
          (fun l => l != "")
      match servicesLookup services svc_id with
      | some svc =>
          (dedupAppend (dedupAppend p.1 svc.domains) svc.custom_domains,
           dedupAppend (dedupAppend p.2 svc.custom_ips) fileCidrs)
      | none => (p.1, dedupAppend p.2 fileCidrs)) init
    if ¬ collected.1.isEmpty ∨ ¬ collected.2.isEmpty ∨ ¬ d.services.isEmpty then
      some { device_id := d.id, set_name := set_name, ip := d.ip,
             name := d.name, domains := collected.1, cidrs := collected.2 }
    else none
  else none

/-- The two rules added for one custom device entry: the set-scoped mark
rule followed by the unconditional return rule. -/
def customEntryRules (e : DeviceSetEntry) : List NftRule :=
  [{ body := .markDaddrSet e.ip e.set_name, comment := customComment e.device_id },
   { body := .ret e.ip, comment := skipGlobalComment e.device_id }]

/-- `nft add set` followed by `nft add element` for each CIDR: an existing
set of the same name receives the new elements, otherwise the set is
created. -/
def addSet (sets : List (String × List String)) (name : String) (elems : List String) :
    List (String × List String) :=
  match sets.find? (fun s => s.1 == name) with
  | some _ => sets.map (fun s => if s.1 == name then (s.1, dedupAppend s.2 elems) else s)
  | none => sets ++ [(name, dedupAppend [] elems)]

/-- Pair rules with consecutive handles starting at `n`. -/
def attachHandles (n : Nat) : List NftRule → List (Nat × NftRule)
  | [] => []
  | r :: rest => (n, r) :: attachHandles (n + 1) rest

/-- `nft add rule` for each rule in order: append at the end of the chain
with fresh increasing handles. -/
def appendRules (st : NftState) (rs : List NftRule) : NftState :=
  { rules := st.rules ++ attachHandles st.next rs,
    sets := st.sets,
    next := st.next + rs.length }

/-- `generate_device_rules`: clean all previously generated device rules
and sets, then, when the devices file exists and at least one device is
enabled, apply the simple `vpn_all`/`direct_all` rules followed by, per
custom entry, the device set and its mark/return rule pair. -/
def generate_device_rules (devices : List Device) (services : List Service)
    (listFiles : String → List String) (devicesFileExists : Bool)
    (st : NftState) : NftState :=
  let st1 := clean_device_rules st
  if ¬ devicesFileExists then st1
  else
    let enabled_devices := devices.filter (fun d => d.enabled)
    if enabled_devices.isEmpty then st1
    else
      let simple := deviceSimpleRules enabled_devices
      let entries := enabled_devices.filterMap (customEntryFor services listFiles)
      let st2 := appendRules st1 simple
      entries.foldl (fun s e =>
        let s2 := { s with sets := addSet s.sets e.set_name e.cidrs }
        appendRules s2 (customEntryRules e)) st2

-- ===== Concrete data used by the witnesses and counterexamples =====

/-- A deterministic id supply standing in for `generate_id()`. -/
def sampleGids : Nat → String := fun n => "id" ++ toString n

/-- Placeholder for the unmodelled `yaml.safe_load`. -/
def yloadUnmodelled : String → Except String JVal := fun _ =>
  .error "yaml.safe_load is not modelled"

/-- The concrete reality share link of the spec scenario. -/
def link6 : String :=
  "vless://11111111-2222-3333-4444-555555555555@1.2.3.4:443?security=reality&sni=google.com&fp=chrome&pbk=KEY123&sid=ab#MyServer"

/-- `base64("vless://u@1.2.3.4:443#N")`: a one-link base64 subscription. -/
def b64OneLink : String := "dmxlc3M6Ly91QDEuMi4zLjQ6NDQzI04="

/-- A raw (not base64-encoded) share-link subscription body. -/
def rawOneLink : String := "vless://u@1.2.3.4:443#N"

def t7A : Tunnel :=
  { id := "a", name := "A", type := "vless", enabled := true, server := "s1",
    port := 1, source := "manual", subscription_id := none, latency := none,
    last_check := none, settings := [], tls := [], transport := [] }

def t7B : Tunnel := { t7A with id := "b", name := "B", server := "s2", port := 2 }

def t7C : Tunnel := { t7A with id := "c", name := "C", server := "s3", port := 3 }

/-- The urltest group of the spec scenario: members [A, C], tolerance 50. -/
def g7c : TunnelGroup :=
  { id := "g1", name := "G", tag := some "grp", type := "urltest",
    tunnels := ["a", "c"], interval := none, tolerance := some 50 }

def tSub : Tunnel := { t7A with id := "s", subscription_id := some "sub1", source := "subscription" }

def tKeep : Tunnel := { t7A with id := "k", subscription_id := some "other" }

def tManual : Tunnel := { t7A with id := "m", subscription_id := none }

def stC9 : FsState := { config := some [("old", JVal.null)], backup := none }

/-- Oracle of the C9 counterexample: the write raises, and the restore
copy in the `except` handler raises as well. -/
def oC9bad : ApplyOracle :=
  { backupCopyRaises := false, writeRaises := true,
    restart := Except.ok 0, restoreCopyRaises := true }

/-- Fully successful apply run. -/
def oC9good : ApplyOracle :=
  { backupCopyRaises := false, writeRaises := false,
    restart := Except.ok 0, restoreCopyRaises := false }

/-- Apply run whose write raises but whose restore copy succeeds. -/
def oC9restore : ApplyOracle :=
  { backupCopyRaises := false, writeRaises := true,
    restart := Except.ok 0, restoreCopyRaises := false }

def svcW : Service :=
  { id := "svc1", domains := ["x.com"], custom_domains := [], custom_ips := [] }

/-- Witness device: enabled, custom mode, one associated service. -/
def devW : Device :=
  { id := "d1", name := "Phone", ip := "192.168.1.10", mode := "custom",
    services := ["svc1"], custom_domains := [], custom_ips := ["1.1.1.1/32"],
    enabled := true }

/-- C10 device: enabled, custom mode, no services and empty custom lists. -/
def devEmpty : Device :=
  { id := "d2", name := "Tablet", ip := "192.168.1.11", mode := "custom",
    services := [], custom_domains := [], custom_ips := [], enabled := true }

def listFilesNone : String → List String := fun _ => []

def stNftEmpty : NftState := { rules := [], sets := [], next := 0 }

-- ===== Helper lemmas =====

theorem parse_vless_body_import (gid link : String) (t : Tunnel)
    (h : parse_vless_body gid link = .ok (some t)) :
    t.source = "import" ∧ t.subscription_id = none := by
  unfold parse_vless_body at h
  simp only [Bind.bind, Except.bind, Pure.pure, Except.pure] at h
  iterate 25 all_goals (try split at h)
  all_goals (try cases h)
  all_goals exact ⟨rfl, rfl⟩

theorem parse_vmess_body_import (gid link : String) (t : Tunnel)
    (h : parse_vmess_body gid link = .ok (some t)) :
    t.source = "import" ∧ t.subscription_id = none := by
  unfold parse_vmess_body at h
  simp only [Bind.bind, Except.bind, Pure.pure, Except.pure] at h
  iterate 40 all_goals (try split at h)
  all_goals (try cases h)
  all_goals exact ⟨rfl, rfl⟩

theorem parse_ss_body_import (gid link : String) (t : Tunnel)
    (h : parse_ss_body gid link = .ok (some t)) :
    t.source = "import" ∧ t.subscription_id = none := by
  unfold parse_ss_body at h
  simp only [Bind.bind, Except.bind, Pure.pure, Except.pure] at h
  iterate 30 all_goals (try split at h)
  all_goals (try cases h)
  all_goals exact ⟨rfl, rfl⟩

theorem parse_trojan_body_import (gid link : String) (t : Tunnel)
    (h : parse_trojan_body gid link = .ok (some t)) :
    t.source = "import" ∧ t.subscription_id = none := by
  unfold parse_trojan_body at h
  simp only [Bind.bind, Except.bind, Pure.pure, Except.pure] at h
  iterate 25 all_goals (try split at h)
  all_goals (try cases h)
  all_goals exact ⟨rfl, rfl⟩

theorem parse_hysteria2_body_import (gid : String) (content0 : List Char) (t : Tunnel)
    (h : parse_hysteria2_body gid content0 = .ok (some t)) :
    t.source = "import" ∧ t.subscription_id = none := by
  unfold parse_hysteria2_body at h
  simp only [Bind.bind, Except.bind, Pure.pure, Except.pure] at h
  iterate 30 all_goals (try split at h)
  all_goals (try cases h)
  all_goals exact ⟨rfl, rfl⟩

theorem parse_share_link_import (gid link : String) (t : Tunnel)
    (h : parse_share_link gid link = some t) :
    t.source = "import" ∧ t.subscription_id = none := by
  unfold parse_share_link parse_vless_link parse_vmess_link parse_ss_link
    parse_trojan_link parse_hysteria2_link at h
  simp only [] at h
  iterate 12 all_goals (try split at h)
  all_goals (try cases h)
  all_goals
    (first
      | exact parse_vless_body_import _ _ _ (by assumption)
      | exact parse_vmess_body_import _ _ _ (by assumption)
      | exact parse_ss_body_import _ _ _ (by assumption)
      | exact parse_trojan_body_import _ _ _ (by assumption)
      | exact parse_hysteria2_body_import _ _ _ (by assumption))

theorem import_flag_of (t : Tunnel)
    (h1 : t.source = "import") (h2 : t.subscription_id = none) :
    (t.source == "import" && t.subscription_id == none) = true := by
  simp [h1, h2]

theorem subscription_flag_of (t : Tunnel)
    (h1 : t.source = "subscription") (h2 : t.subscription_id = none) :
    (t.source == "subscription" && t.subscription_id == none) = true := by
  simp [h1, h2]

theorem parseShareLines_all (p : Tunnel → Bool)
    (hp : ∀ gid link t, parse_share_link gid link = some t → p t = true)
    (gids : Nat → String) (lines : List (List Char)) :
    (parseShareLines gids lines).all p = true := by
  unfold parseShareLines
  suffices h : ∀ (pairs : List (Nat × List Char)) (acc : List Tunnel), acc.all p = true →
      (pairs.foldl (fun acc q =>
        let line := pyStrip q.2
        if line.isEmpty then acc
        else
          match parse_share_link (gids q.1) (String.mk line) with
          | some t => acc ++ [t]
          | none => acc) acc).all p = true by
    exact h _ [] rfl
  intro pairs
  induction pairs with
  | nil => intro acc hacc; exact hacc
  | cons q rest ih =>
      intro acc hacc
      rw [List.foldl_cons]
      apply ih
      simp only []
      split
      · exact hacc
      · split
        next t hps => simp [List.all_append, hacc, hp _ _ t hps]
        next => exact hacc

theorem collectSteps_all (p : Tunnel → Bool)
    (step : Nat → JVal → Except String (Option Tunnel))
    (hstep : ∀ i x t, step i x = .ok (some t) → p t = true) :
    ∀ (xs : List JVal) (i : Nat) (acc : List Tunnel), acc.all p = true →
      (collectSteps step xs i acc).all p = true := by
  intro xs
  induction xs with
  | nil => intro i acc hacc; exact hacc
  | cons x rest ih =>
      intro i acc hacc
      unfold collectSteps
      split
      · exact hacc
      · exact ih _ _ hacc
      · next t hst => exact ih _ _ (by simp [List.all_append, hacc, hstep _ _ t hst])

theorem clashProxyStep_subscription (gid : String) (proxy : JVal) (t : Tunnel)
    (h : clashProxyStep gid proxy = .ok (some t)) :
    t.source = "subscription" ∧ t.subscription_id = none := by
  unfold clashProxyStep at h
  cases hc : clashProxyCore proxy with
  | error e => rw [hc] at h; simp [Except.map] at h
  | ok o =>
      rw [hc] at h
      cases o with
      | none => simp [Except.map] at h
      | some c =>
          simp only [Except.map, Option.map] at h
          cases h
          exact ⟨rfl, rfl⟩

theorem singboxOutboundStep_subscription (gid : String) (ob : JVal) (t : Tunnel)
    (h : singboxOutboundStep gid ob = .ok (some t)) :
    t.source = "subscription" ∧ t.subscription_id = none := by
  unfold singboxOutboundStep at h
  cases hc : singboxOutboundCore ob with
  | error e => rw [hc] at h; simp [Except.map] at h
  | ok o =>
      rw [hc] at h
      cases o with
      | none => simp [Except.map] at h
      | some c =>
          simp only [Except.map, Option.map] at h
          cases h
          exact ⟨rfl, rfl⟩

theorem groupMemberTags_aux (ts : List Tunnel) (ids : List String) (acc : List String) :
    ids.foldl (fun acc t_id =>
      match ts.find? (fun t => t.id == t_id && t.enabled) with
      | some t => acc ++ [tunnelTag t]
      | none => acc) acc
    = acc ++ ids.filterMap (fun tid =>
        (ts.find? (fun t => t.id == tid && t.enabled)).map tunnelTag) := by
  induction ids generalizing acc with
  | nil => simp
  | cons i rest ih =>
      cases h : ts.find? (fun t => t.id == i && t.enabled) with
      | none => simp [List.foldl_cons, h, List.filterMap_cons, ih]
      | some t => simp [List.foldl_cons, h, List.filterMap_cons, ih]

theorem groupMemberTags_eq (g : TunnelGroup) (ts : List Tunnel) :
    groupMemberTags g ts
      = g.tunnels.filterMap (fun tid =>
          (ts.find? (fun t => t.id == tid && t.enabled)).map tunnelTag) := by
  unfold groupMemberTags
  simpa using groupMemberTags_aux ts g.tunnels []

theorem group_outbound_outbounds (g : TunnelGroup) (ts : List Tunnel) :
    dget (generate_group_outbound g ts) "outbounds"
      = some (.arr ((groupMemberTags g ts).map .str)) := by
  unfold generate_group_outbound
  split
  · rfl
  · split
    · rfl
    · rfl

theorem group_outbound_truthy (g : TunnelGroup) (ts : List Tunnel) :
    pyTruthy (dgetD (generate_group_outbound g ts) "outbounds" .null)
      = !(groupMemberTags g ts).isEmpty := by
  unfold generate_group_outbound
  generalize groupMemberTags g ts = m
  split
  · cases m <;> rfl
  · split
    · cases m <;> rfl
    · cases m <;> rfl

theorem configOutbounds_eq (ts : List Tunnel) (gs : List TunnelGroup) :
    configOutbounds ts gs
      = .obj [("type", .str "direct"), ("tag", .str "direct-out")] ::
          ((ts.filter (fun t => t.enabled)).map (fun t => .obj (generate_tunnel_outbound t)) ++
            (gs.filter (fun g => !(groupMemberTags g ts).isEmpty)).map
              (fun g => .obj (generate_group_outbound g ts))) := by
  unfold configOutbounds
  rw [List.filter_map, List.map_map]
  have hfil :
      List.filter
          ((fun ob => pyTruthy (dgetD ob "outbounds" JVal.null)) ∘
            fun g => generate_group_outbound g ts) gs
        = List.filter (fun g => !(groupMemberTags g ts).isEmpty) gs :=
    List.filter_congr (fun g _ => group_outbound_truthy g ts)
  rw [hfil]
  rfl

-- ===== Device compiler lemmas =====

theorem attachHandles_map_snd (n : Nat) (rs : List NftRule) :
    (attachHandles n rs).map Prod.snd = rs := by
  induction rs generalizing n with
  | nil => rfl
  | cons r rest ih => simp [attachHandles, ih]

theorem attachHandles_append (n : Nat) (a b : List NftRule) :
    attachHandles n (a ++ b) = attachHandles n a ++ attachHandles (n + a.length) b := by
  induction a generalizing n with
  | nil => simp [attachHandles]
  | cons r rest ih =>
      simp only [List.cons_append, attachHandles, ih, List.length_cons]
      have h : n + (rest.length + 1) = n + 1 + rest.length := by omega
      rw [h]
      exact congrArg _ (ih (n + 1))

theorem attachHandles_fst_bound (n : Nat) (rs : List NftRule) :
    ∀ p ∈ attachHandles n rs, n ≤ p.1 ∧ p.1 < n + rs.length := by
  induction rs generalizing n with
  | nil => intro p hp; simp [attachHandles] at hp
  | cons r rest ih =>
      intro p hp
      simp only [attachHandles, List.mem_cons] at hp
      rcases hp with rfl | hp
      · simp
      · have := ih (n + 1) p hp
        simp only [List.length_cons]
        omega

theorem attachHandles_fst_nodup (n : Nat) (rs : List NftRule) :
    ((attachHandles n rs).map Prod.fst).Nodup := by
  induction rs generalizing n with
  | nil => simp [attachHandles]
  | cons r rest ih =>
      simp only [attachHandles, List.map_cons, List.nodup_cons]
      refine ⟨?_, ih (n + 1)⟩
      intro hmem
      simp only [List.mem_map] at hmem
      obtain ⟨p, hp, hfst⟩ := hmem
      have := (attachHandles_fst_bound (n + 1) rest p hp).1
      omega

theorem foldl_deleteHandle (hs : List Nat) (rules : List (Nat × NftRule)) :
    hs.foldl deleteHandle rules = rules.filter (fun r => !(hs.contains r.1)) := by
  induction hs generalizing rules with
  | nil => simp
  | cons h t ih =>
      rw [List.foldl_cons, ih]
      unfold deleteHandle
      rw [List.filter_filter]
      apply List.filter_congr
      intro r _
      by_cases h1 : r.1 = h <;> by_cases h2 : t.contains r.1 <;>
        simp_all [List.contains_cons]

theorem nodup_fst_inj {l : List (Nat × NftRule)} (hN : (l.map Prod.fst).Nodup)
    {r s : Nat × NftRule} (hr : r ∈ l) (hs : s ∈ l) (h : r.1 = s.1) : r = s :=
  List.inj_on_of_nodup_map hN hr hs h

theorem clean_device_rules_eq (st : NftState) (hN : (st.rules.map Prod.fst).Nodup) :
    clean_device_rules st
      = { rules := st.rules.filter (fun r => !(containsMarker r.2.comment)),
          sets := st.sets.filter (fun s => !("device_".data.isPrefixOf s.1.data)),
          next := st.next } := by
  unfold clean_device_rules
  simp only []
  congr 1
  rw [foldl_deleteHandle]
  apply List.filter_congr
  intro r hr
  congr 1
  by_cases hm : containsMarker r.2.comment = true
  · rw [hm]
    have hmem :
        r.1 ∈ ((st.rules.filter (fun x => containsMarker x.2.comment)).map Prod.fst).reverse := by
      rw [List.mem_reverse]
      exact List.mem_map_of_mem _ (List.mem_filter.mpr ⟨hr, hm⟩)
    simpa using hmem
  · have hf : containsMarker r.2.comment = false := by
      revert hm; cases containsMarker r.2.comment <;> simp
    rw [hf]
    cases hc :
        ((st.rules.filter (fun x => containsMarker x.2.comment)).map Prod.fst).reverse.contains
          r.1 with
    | false => rfl
    | true =>
        exfalso
        have hmem :
            r.1 ∈ ((st.rules.filter (fun x => containsMarker x.2.comment)).map Prod.fst).reverse := by
          simpa using hc
        rw [List.mem_reverse] at hmem
        obtain ⟨r2, hr2, hfst⟩ := List.mem_map.mp hmem
        have hr2f := List.mem_filter.mp hr2
        have heq : r2 = r := nodup_fst_inj hN hr2f.1 hr hfst
        rw [heq] at hr2f
        rw [hr2f.2] at hf
        exact Bool.noConfusion hf

theorem isPrefixOf_append_self (n r : List Char) : n.isPrefixOf (n ++ r) = true := by
  induction n with
  | nil => simp [List.isPrefixOf]
  | cons c rest ih => simp [List.isPrefixOf, ih]

theorem listIsInfixOf_of_prefix (n l : List Char) (h : n.isPrefixOf l = true) :
    listIsInfixOf n l = true := by
  cases l with
  | nil => cases n <;> simp_all [listIsInfixOf, List.isPrefixOf]
  | cons b bs => simp [listIsInfixOf, h]

theorem containsMarker_comment (id suffix : String) :
    containsMarker (deviceRuleMarker ++ " " ++ id ++ suffix) = true := by
  unfold containsMarker
  have h : (deviceRuleMarker ++ " " ++ id ++ suffix).data
      = deviceRuleMarker.data ++ (" ".data ++ (id.data ++ suffix.data)) := by
    show ((deviceRuleMarker.data ++ " ".data) ++ id.data) ++ suffix.data = _
    simp [List.append_assoc]
  rw [h]
  exact listIsInfixOf_of_prefix _ _ (isPrefixOf_append_self _ _)

theorem comment_eq_data (x y s t : String)
    (h : deviceRuleMarker ++ " " ++ x ++ s = deviceRuleMarker ++ " " ++ y ++ t) :
    x.data ++ s.data = y.data ++ t.data := by
  have hd : ((deviceRuleMarker.data ++ " ".data) ++ x.data) ++ s.data
      = ((deviceRuleMarker.data ++ " ".data) ++ y.data) ++ t.data := congrArg String.data h
  simp only [List.append_assoc] at hd
  exact List.append_cancel_left (List.append_cancel_left hd)

theorem comment_ne_of_suffix (x y s t : String)
    (hs : 2 ≤ s.data.length) (ht : 2 ≤ t.data.length)
    (hne : s.data.reverse.take 2 ≠ t.data.reverse.take 2) :
    deviceRuleMarker ++ " " ++ x ++ s ≠ deviceRuleMarker ++ " " ++ y ++ t := by
  intro h
  have h2 := comment_eq_data x y s t h
  have h3 := congrArg (fun l => (List.reverse l).take 2) h2
  simp only [List.reverse_append] at h3
  rw [List.take_append_of_le_length (by simpa using hs),
      List.take_append_of_le_length (by simpa using ht)] at h3
  exact hne h3

theorem comment_inj_id (x y s : String)
    (h : deviceRuleMarker ++ " " ++ x ++ s = deviceRuleMarker ++ " " ++ y ++ s) : x = y := by
  have h2 := comment_eq_data x y s s h
  have h3 := List.append_cancel_right h2
  exact congrArg String.mk h3

theorem simple_rule_marker (en : List Device) :
    ∀ r ∈ deviceSimpleRules en, containsMarker r.comment = true := by
  intro r hr
  unfold deviceSimpleRules at hr
  obtain ⟨dev, _, hsome⟩ := List.mem_filterMap.mp hr
  split at hsome
  · cases hsome; exact containsMarker_comment _ _
  · split at hsome
    · cases hsome; exact containsMarker_comment _ _
    · cases hsome

theorem entry_rules_marker (e : DeviceSetEntry) :
    ∀ r ∈ customEntryRules e, containsMarker r.comment = true := by
  intro r hr
  simp only [customEntryRules, List.mem_cons, List.not_mem_nil, or_false] at hr
  rcases hr with rfl | rfl
  · exact containsMarker_comment _ _
  · exact containsMarker_comment _ _

theorem flat_rules_marker (entries : List DeviceSetEntry) :
    ∀ r ∈ (entries.map customEntryRules).flatten, containsMarker r.comment = true := by
  intro r hr
  obtain ⟨l, hl, hrl⟩ := List.mem_flatten.mp hr
  obtain ⟨e, _, rfl⟩ := List.mem_map.mp hl
  exact entry_rules_marker e r hrl

theorem fold_entries_shape (entries : List DeviceSetEntry) (s : NftState) :
    entries.foldl (fun s e =>
      let s2 := { s with sets := addSet s.sets e.set_name e.cidrs }
      appendRules s2 (customEntryRules e)) s
    = { rules := s.rules ++ attachHandles s.next (entries.map customEntryRules).flatten,
        sets := entries.foldl (fun ss e => addSet ss e.set_name e.cidrs) s.sets,
        next := s.next + 2 * entries.length } := by
  induction entries generalizing s with
  | nil => simp [attachHandles]
  | cons e rest ih =>
      rw [List.foldl_cons, ih]
      simp only [appendRules, List.map_cons, List.flatten_cons, List.foldl_cons,
        List.length_cons, attachHandles_append]
      congr 1
      · simp [customEntryRules, List.append_assoc, attachHandles]
      · simp [customEntryRules]
        omega

theorem run_shape (devices : List Device) (services : List Service)
    (listFiles : String → List String) (st : NftState)
    (hne : devices.filter (fun d => d.enabled) ≠ []) :
    generate_device_rules devices services listFiles true st
      = { rules := (clean_device_rules st).rules ++
            attachHandles st.next
              (deviceSimpleRules (devices.filter (fun d => d.enabled)) ++
                (((devices.filter (fun d => d.enabled)).filterMap
                    (customEntryFor services listFiles)).map customEntryRules).flatten),
          sets := ((devices.filter (fun d => d.enabled)).filterMap
              (customEntryFor services listFiles)).foldl
            (fun ss e => addSet ss e.set_name e.cidrs) (clean_device_rules st).sets,
          next := st.next
            + (deviceSimpleRules (devices.filter (fun d => d.enabled))).length
            + 2 * ((devices.filter (fun d => d.enabled)).filterMap
                (customEntryFor services listFiles)).length } := by
  unfold generate_device_rules
  simp only []
  rw [if_neg (by simp)]
  rw [if_neg (by simpa [List.isEmpty_iff] using hne)]
  rw [fold_entries_shape]
  have hnext : (clean_device_rules st).next = st.next := rfl
  simp only [appendRules, hnext]
  congr 1
  · rw [attachHandles_append, List.append_assoc]

theorem customEntryFor_some (services : List Service) (listFiles : String → List String)
    (dev : Device) (e : DeviceSetEntry)
    (h : customEntryFor services listFiles dev = some e) :
    e.device_id = dev.id ∧ e.ip = dev.ip := by
  unfold customEntryFor at h
  split at h
  · simp only [] at h
    split at h
    · cases h; exact ⟨rfl, rfl⟩
    · cases h
  · cases h

theorem entries_ids_sublist (services : List Service) (listFiles : String → List String) :
    ∀ devs : List Device,
      ((devs.filterMap (customEntryFor services listFiles)).map
          (fun e => e.device_id)).Sublist (devs.map Device.id) := by
  intro devs
  induction devs with
  | nil => simp
  | cons dev rest ih =>
      rw [List.filterMap_cons]
      cases h : customEntryFor services listFiles dev with
      | none =>
          simp only [List.map_cons]
          exact ih.cons _
      | some e =>
          simp only [List.map_cons]
          rw [(customEntryFor_some _ _ _ _ h).1]
          exact ih.cons₂ _

theorem target_not_in_entries (entries : List DeviceSetEntry) (d : Device)
    (hids : ∀ e2 ∈ entries, e2.device_id ≠ d.id) (setName : String) :
    (NftRule.mk (.markDaddrSet d.ip setName) (customComment d.id)
        ∉ (entries.map customEntryRules).flatten) ∧
    (NftRule.mk (.ret d.ip) (skipGlobalComment d.id)
        ∉ (entries.map customEntryRules).flatten) := by
  constructor <;>
    (intro hmem
     obtain ⟨l, hl, hrl⟩ := List.mem_flatten.mp hmem
     obtain ⟨e2, he2, rfl⟩ := List.mem_map.mp hl
     simp only [customEntryRules, List.mem_cons, List.not_mem_nil, or_false] at hrl)
  · rcases hrl with h | h
    · have := (NftRule.mk.injEq _ _ _ _).mp h.symm
      exact hids e2 he2 (comment_inj_id _ _ _ this.2)
    · exact NftRule.noConfusion h (fun hb _ => RuleBody.noConfusion hb)
  · rcases hrl with h | h
    · exact NftRule.noConfusion h (fun hb _ => RuleBody.noConfusion hb)
    · have := (NftRule.mk.injEq _ _ _ _).mp h.symm
      exact hids e2 he2 (comment_inj_id _ _ _ this.2)

theorem target_not_in_simple (en : List Device) (d : Device) (setName : String) :
    (NftRule.mk (.markDaddrSet d.ip setName) (customComment d.id) ∉ deviceSimpleRules en) ∧
    (NftRule.mk (.ret d.ip) (skipGlobalComment d.id) ∉ deviceSimpleRules en) := by
  constructor <;>
    (intro hmem
     obtain ⟨dev, _, hsome⟩ := List.mem_filterMap.mp hmem
     split at hsome)
  · cases hsome
  · split at hsome
    · cases hsome
    · cases hsome
  · cases hsome
  · split at hsome
    · have h2 : NftRule.mk (.ret dev.ip) (directAllComment dev.id)
          = NftRule.mk (.ret d.ip) (skipGlobalComment d.id) := by
        injection hsome
      have := (NftRule.mk.injEq _ _ _ _).mp h2
      exact absurd this.2
        (comment_ne_of_suffix _ _ " direct_all" " skip global"
          (by decide) (by decide) (by decide))
    · cases hsome

theorem customEntryFor_set_name (services : List Service) (listFiles : String → List String)
    (dev : Device) (e : DeviceSetEntry)
    (h : customEntryFor services listFiles dev = some e) :
    "device_".data.isPrefixOf e.set_name.data = true := by
  unfold customEntryFor at h
  split at h
  · simp only [] at h
    split at h
    · cases h
      exact isPrefixOf_append_self _ _
    · cases h
  · cases h

theorem map_update_filter_pref (name : String) (elems : List String)
    (hpref : "device_".data.isPrefixOf name.data = true) :
    ∀ S : List (String × List String),
      (S.map (fun s => if s.1 == name then (s.1, dedupAppend s.2 elems) else s)).filter
          (fun s => !("device_".data.isPrefixOf s.1.data))
        = S.filter (fun s => !("device_".data.isPrefixOf s.1.data)) := by
  intro S
  induction S with
  | nil => rfl
  | cons s rest ih =>
      by_cases hs : (s.1 == name) = true
      · have hname : s.1 = name := by simpa using hs
        have hp : ("device_".data.isPrefixOf s.1.data) = true := by rw [hname]; exact hpref
        rw [List.map_cons, if_pos hs]
        rw [List.filter_cons_of_neg (by simp [hp]), List.filter_cons_of_neg (by simp [hp])]
        exact ih
      · rw [List.map_cons, if_neg hs, List.filter_cons, List.filter_cons, ih]

theorem addSet_filter_pref (S : List (String × List String)) (name : String)
    (elems : List String) (hpref : "device_".data.isPrefixOf name.data = true) :
    (addSet S name elems).filter (fun s => !("device_".data.isPrefixOf s.1.data))
      = S.filter (fun s => !("device_".data.isPrefixOf s.1.data)) := by
  unfold addSet
  split
  · exact map_update_filter_pref name elems hpref S
  · simp [List.filter_append, hpref]

theorem fold_addSet_filter (entries : List DeviceSetEntry)
    (hpref : ∀ e ∈ entries, "device_".data.isPrefixOf e.set_name.data = true) :
    ∀ S, ((entries.foldl (fun ss e => addSet ss e.set_name e.cidrs) S).filter
        (fun s => !("device_".data.isPrefixOf s.1.data)))
      = S.filter (fun s => !("device_".data.isPrefixOf s.1.data)) := by
  induction entries with
  | nil => intro S; rfl
  | cons e rest ih =>
      intro S
      rw [List.foldl_cons, ih (fun x hx => hpref x (List.mem_cons_of_mem _ hx)),
        addSet_filter_pref _ _ _ (hpref e (List.mem_cons_self _ _))]

theorem appendRules_nil (s : NftState) : appendRules s [] = s := by
  simp [appendRules, attachHandles]

theorem rules_marker_all (en : List Device) (entries : List DeviceSetEntry) :
    ∀ r ∈ deviceSimpleRules en ++ (entries.map customEntryRules).flatten,
      containsMarker r.comment = true := by
  intro r hr
  rcases List.mem_append.mp hr with h | h
  · exact simple_rule_marker en r h
  · exact flat_rules_marker entries r h

theorem clean_run_rules_sets (devices : List Device) (services : List Service)
    (listFiles : String → List String) (st : NftState)
    (hN : (st.rules.map Prod.fst).Nodup)
    (hB : ∀ h ∈ st.rules.map Prod.fst, h < st.next)
    (hne : devices.filter (fun d => d.enabled) ≠ []) :
    (clean_device_rules (generate_device_rules devices services listFiles true st)).rules
        = (clean_device_rules st).rules ∧
    (clean_device_rules (generate_device_rules devices services listFiles true st)).sets
        = (clean_device_rules st).sets := by
  rw [run_shape devices services listFiles st hne, clean_device_rules_eq st hN]
  have hNF : ((st.rules.filter (fun r => !(containsMarker r.2.comment))).map
      Prod.fst).Nodup :=
    hN.sublist ((List.filter_sublist _).map _)
  have hdisj :
      ∀ a ∈ (st.rules.filter (fun r => !(containsMarker r.2.comment))).map Prod.fst,
        a ∉ (attachHandles st.next
          (deviceSimpleRules (devices.filter (fun d => d.enabled)) ++
            (((devices.filter (fun d => d.enabled)).filterMap
                (customEntryFor services listFiles)).map customEntryRules).flatten)).map
            Prod.fst := by
    intro a ha hmem
    have ha2 : a ∈ st.rules.map Prod.fst := ((List.filter_sublist _).map Prod.fst).mem ha
    have hlt := hB a ha2
    obtain ⟨p, hp, rfl⟩ := List.mem_map.mp hmem
    have := (attachHandles_fst_bound _ _ p hp).1
    omega
  have hN2 : ((st.rules.filter (fun r => !(containsMarker r.2.comment)) ++
      attachHandles st.next
        (deviceSimpleRules (devices.filter (fun d => d.enabled)) ++
          (((devices.filter (fun d => d.enabled)).filterMap
              (customEntryFor services listFiles)).map customEntryRules).flatten)).map
      Prod.fst).Nodup := by
    rw [List.map_append]
    exact (hNF.append (attachHandles_fst_nodup _ _)) (List.disjoint_left.mpr hdisj)
  rw [clean_device_rules_eq _ hN2]
  constructor
  · show (st.rules.filter (fun r => !(containsMarker r.2.comment)) ++
        attachHandles st.next _).filter (fun r => !(containsMarker r.2.comment)) = _
    rw [List.filter_append]
    have h1 : (st.rules.filter (fun r => !(containsMarker r.2.comment))).filter
        (fun r => !(containsMarker r.2.comment))
        = st.rules.filter (fun r => !(containsMarker r.2.comment)) :=
      List.filter_eq_self.mpr (fun a ha => (List.mem_filter.mp ha).2)
    have h2 : (attachHandles st.next
        (deviceSimpleRules (devices.filter (fun d => d.enabled)) ++
          (((devices.filter (fun d => d.enabled)).filterMap
              (customEntryFor services listFiles)).map customEntryRules).flatten)).filter
        (fun r => !(containsMarker r.2.comment)) = [] := by
      rw [List.filter_eq_nil_iff]
      intro p hp
      have hsnd : p.2 ∈ (attachHandles st.next
          (deviceSimpleRules (devices.filter (fun d => d.enabled)) ++
            (((devices.filter (fun d => d.enabled)).filterMap
                (customEntryFor services listFiles)).map customEntryRules).flatten)).map
          Prod.snd := List.mem_map_of_mem _ hp
      rw [attachHandles_map_snd] at hsnd
      have := rules_marker_all _ _ _ hsnd
      simp [this]
    rw [h1, h2, List.append_nil]
  · show (((devices.filter (fun d => d.enabled)).filterMap
        (customEntryFor services listFiles)).foldl
          (fun ss e => addSet ss e.set_name e.cidrs)
          (st.sets.filter (fun s => !("device_".data.isPrefixOf s.1.data)))).filter
        (fun s => !("device_".data.isPrefixOf s.1.data)) = _
    rw [fold_addSet_filter]
    · exact List.filter_eq_self.mpr (fun a ha => (List.mem_filter.mp ha).2)
    · intro e he
      obtain ⟨dev, _, hdev⟩ := List.mem_filterMap.mp he
      exact customEntryFor_set_name _ _ _ _ hdev

theorem run_idempotent (devices : List Device) (services : List Service)
    (listFiles : String → List String) (st : NftState)
    (hN : (st.rules.map Prod.fst).Nodup)
    (hB : ∀ h ∈ st.rules.map Prod.fst, h < st.next)
    (hne : devices.filter (fun d => d.enabled) ≠ []) :
    ((generate_device_rules devices services listFiles true
        (generate_device_rules devices services listFiles true st)).rules.map Prod.snd
      = (generate_device_rules devices services listFiles true st).rules.map Prod.snd) ∧
    ((generate_device_rules devices services listFiles true
        (generate_device_rules devices services listFiles true st)).sets
      = (generate_device_rules devices services listFiles true st).sets) := by
  obtain ⟨hr, hs⟩ := clean_run_rules_sets devices services listFiles st hN hB hne
  rw [run_shape devices services listFiles st hne] at hr hs
  rw [run_shape devices services listFiles
      (generate_device_rules devices services listFiles true st) hne,
    run_shape devices services listFiles st hne]
  constructor
  · simp only [List.map_append, attachHandles_map_snd, hr]
  · simp only [hs]

/-- C2: for an enabled custom-mode device with at least one associated
service, domain or IP (its `device_sets` entry `e` exists), one
compilation run emits exactly one set-scoped mark rule and exactly one
unconditional return rule for the device, the mark rule immediately before
the return rule; and compiling twice yields the same rules (by content)
and the same sets, because the cleanup pass first removes every rule
carrying the `pinpoint: device` comment marker and every `device_*`
set. -/
theorem C2_custom_device_rule_pair
    (devices : List Device) (services : List Service)
    (listFiles : String → List String) (st : NftState) (d : Device) (e : DeviceSetEntry)
    (hN : (st.rules.map Prod.fst).Nodup)
    (hB : ∀ h ∈ st.rules.map Prod.fst, h < st.next)
    (hIds : (devices.map Device.id).Nodup)
    (hmem : d ∈ devices) (hen : d.enabled = true) (hmode : d.mode = "custom")
    (hentry : customEntryFor services listFiles d = some e) :
    (((generate_device_rules devices services listFiles true st).rules.map
        Prod.snd).count
        (NftRule.mk (.markDaddrSet d.ip e.set_name) (customComment d.id)) = 1) ∧
    (((generate_device_rules devices services listFiles true st).rules.map
        Prod.snd).count
        (NftRule.mk (.ret d.ip) (skipGlobalComment d.id)) = 1) ∧
    (∃ l1 l3, (generate_device_rules devices services listFiles true st).rules.map
        Prod.snd
      = l1 ++ [NftRule.mk (.markDaddrSet d.ip e.set_name) (customComment d.id),
               NftRule.mk (.ret d.ip) (skipGlobalComment d.id)] ++ l3) ∧
    ((generate_device_rules devices services listFiles true
        (generate_device_rules devices services listFiles true st)).rules.map Prod.snd
      = (generate_device_rules devices services listFiles true st).rules.map Prod.snd) ∧
    ((generate_device_rules devices services listFiles true
        (generate_device_rules devices services listFiles true st)).sets
      = (generate_device_rules devices services listFiles true st).sets) := by
  have hmemF : d ∈ devices.filter (fun x => x.enabled) := List.mem_filter.mpr ⟨hmem, hen⟩
  have hne : devices.filter (fun x => x.enabled) ≠ [] := List.ne_nil_of_mem hmemF
  obtain ⟨D1, D2, hsplit⟩ := List.append_of_mem hmemF
  obtain ⟨hid, hip⟩ := customEntryFor_some services listFiles d e hentry
  have hids_en : ((devices.filter (fun x => x.enabled)).map Device.id).Nodup :=
    hIds.sublist ((List.filter_sublist _).map _)
  rw [hsplit, List.map_append, List.map_cons] at hids_en
  obtain ⟨hnd1, hnd2, hdisj⟩ := List.nodup_append.mp hids_en
  have hd1 : d.id ∉ D1.map Device.id := fun hx => hdisj hx (List.mem_cons_self _ _)
  have hd2 : d.id ∉ D2.map Device.id := (List.nodup_cons.mp hnd2).1
  have hE1 : ∀ e2 ∈ D1.filterMap (customEntryFor services listFiles),
      e2.device_id ≠ d.id := by
    intro e2 he2 heq
    obtain ⟨dev, hdev, hdev2⟩ := List.mem_filterMap.mp he2
    apply hd1
    rw [← heq, (customEntryFor_some _ _ _ _ hdev2).1]
    exact List.mem_map_of_mem _ hdev
  have hE2 : ∀ e2 ∈ D2.filterMap (customEntryFor services listFiles),
      e2.device_id ≠ d.id := by
    intro e2 he2 heq
    obtain ⟨dev, hdev, hdev2⟩ := List.mem_filterMap.mp he2
    apply hd2
    rw [← heq, (customEntryFor_some _ _ _ _ hdev2).1]
    exact List.mem_map_of_mem _ hdev
  have hpair : customEntryRules e
      = [NftRule.mk (.markDaddrSet d.ip e.set_name) (customComment d.id),
         NftRule.mk (.ret d.ip) (skipGlobalComment d.id)] := by
    unfold customEntryRules
    rw [hid, hip]
  have hidem := run_idempotent devices services listFiles st hN hB hne
  refine ⟨?_, ?_, ?_, hidem.1, hidem.2⟩ <;>
    (rw [run_shape devices services listFiles st hne, clean_device_rules_eq st hN]
     rw [hsplit, List.filterMap_append, List.filterMap_cons, hentry]
     simp only [List.map_append, List.map_cons, List.flatten_append, List.flatten_cons,
       attachHandles_map_snd, hpair])
  · -- exactly one mark rule
    have hF : NftRule.mk (.markDaddrSet d.ip e.set_name) (customComment d.id)
        ∉ (st.rules.filter (fun r => !(containsMarker r.2.comment))).map Prod.snd := by
      intro hx
      obtain ⟨pair, hpx, hsnd⟩ := List.mem_map.mp hx
      have h2 := (List.mem_filter.mp hpx).2
      rw [hsnd] at h2
      have h3 : containsMarker (customComment d.id) = true := containsMarker_comment _ _
      rw [h3] at h2
      exact Bool.noConfusion h2
    have hS := (target_not_in_simple (D1 ++ d :: D2) d e.set_name).1
    have hJ1 := (target_not_in_entries _ d hE1 e.set_name).1
    have hJ2 := (target_not_in_entries _ d hE2 e.set_name).1
    simp only [List.count_append, List.count_eq_zero.mpr hF, List.count_eq_zero.mpr hS,
      List.count_eq_zero.mpr hJ1, List.count_eq_zero.mpr hJ2]
    have hne12 : (NftRule.mk (.markDaddrSet d.ip e.set_name) (customComment d.id)
        : NftRule) ≠ NftRule.mk (.ret d.ip) (skipGlobalComment d.id) := by
      intro hx
      exact RuleBody.noConfusion ((NftRule.mk.injEq _ _ _ _).mp hx).1
    simp [List.count_cons, hne12]
  · -- exactly one return rule
    have hF : NftRule.mk (.ret d.ip) (skipGlobalComment d.id)
        ∉ (st.rules.filter (fun r => !(containsMarker r.2.comment))).map Prod.snd := by
      intro hx
      obtain ⟨pair, hpx, hsnd⟩ := List.mem_map.mp hx
      have h2 := (List.mem_filter.mp hpx).2
      rw [hsnd] at h2
      have h3 : containsMarker (skipGlobalComment d.id) = true := containsMarker_comment _ _
      rw [h3] at h2
      exact Bool.noConfusion h2
    have hS := (target_not_in_simple (D1 ++ d :: D2) d e.set_name).2
    have hJ1 := (target_not_in_entries _ d hE1 e.set_name).2
    have hJ2 := (target_not_in_entries _ d hE2 e.set_name).2
    simp only [List.count_append, List.count_eq_zero.mpr hF, List.count_eq_zero.mpr hS,
      List.count_eq_zero.mpr hJ1, List.count_eq_zero.mpr hJ2]
    have hne21 : (NftRule.mk (.ret d.ip) (skipGlobalComment d.id) : NftRule)
        ≠ NftRule.mk (.markDaddrSet d.ip e.set_name) (customComment d.id) := by
      intro hx
      exact RuleBody.noConfusion ((NftRule.mk.injEq _ _ _ _).mp hx).1
    simp [List.count_cons, hne21]
  · -- the mark rule sits immediately before the return rule
    refine ⟨(st.rules.filter (fun r => !(containsMarker r.2.comment))).map Prod.snd ++
        (deviceSimpleRules (D1 ++ d :: D2) ++
          ((D1.filterMap (customEntryFor services listFiles)).map customEntryRules).flatten),
      ((D2.filterMap (customEntryFor services listFiles)).map customEntryRules).flatten, ?_⟩
    simp [List.append_assoc]

/-- C2 witness: the concrete enabled custom device with one service and
one custom IP, compiled from the empty nft state. -/
theorem C2_custom_device_rule_pair_witness :
    (((generate_device_rules [devW] [svcW] listFilesNone true stNftEmpty).rules.map
        Prod.snd).count
        (NftRule.mk (.markDaddrSet devW.ip "device_d1") (customComment devW.id)) = 1) ∧
    (((generate_device_rules [devW] [svcW] listFilesNone true stNftEmpty).rules.map
        Prod.snd).count
        (NftRule.mk (.ret devW.ip) (skipGlobalComment devW.id)) = 1) := by
  have h := C2_custom_device_rule_pair [devW] [svcW] listFilesNone stNftEmpty devW
    { device_id := "d1", set_name := "device_d1", ip := "192.168.1.10", name := "Phone",
      domains := ["x.com"], cidrs := ["1.1.1.1/32"] }
    (by simp [stNftEmpty]) (by simp [stNftEmpty]) (by simp) (by simp) rfl rfl (by rfl)
  exact ⟨h.1, h.2.1⟩

/-- C10: a custom-mode device with no custom domains, no custom IPs and no
associated services contributes no `device_sets` entry, and its presence in
the devices list leaves the compiled nft state unchanged: no set and no
rules are emitted for it. -/
theorem C10_empty_custom_device_inert
    (pre post : List Device) (services : List Service)
    (listFiles : String → List String) (fe : Bool) (st : NftState) (d : Device)
    (hmode : d.mode = "custom") (hdom : d.custom_domains = [])
    (hips : d.custom_ips = []) (hsvc : d.services = []) :
    customEntryFor services listFiles d = none ∧
    generate_device_rules (pre ++ d :: post) services listFiles fe st
      = generate_device_rules (pre ++ post) services listFiles fe st := by
  have hnone : customEntryFor services listFiles d = none := by
    simp [customEntryFor, hmode, hdom, hips, hsvc, dedupAppend]
  refine ⟨hnone, ?_⟩
  cases hen : d.enabled with
  | false =>
      have hfil : (pre ++ d :: post).filter (fun x => x.enabled)
          = (pre ++ post).filter (fun x => x.enabled) := by
        rw [List.filter_append, List.filter_cons_of_neg (by simp [hen]),
          List.filter_append]
      simp only [generate_device_rules]
      rw [hfil]
  | true =>
      have hfil : (pre ++ d :: post).filter (fun x => x.enabled)
          = pre.filter (fun x => x.enabled) ++ d :: post.filter (fun x => x.enabled) := by
        rw [List.filter_append, List.filter_cons_of_pos (by simp [hen])]
      have hfil2 : (pre ++ post).filter (fun x => x.enabled)
          = pre.filter (fun x => x.enabled) ++ post.filter (fun x => x.enabled) :=
        List.filter_append _ _
      simp only [generate_device_rules]
      rw [hfil, hfil2]
      by_cases hPQ : pre.filter (fun x => x.enabled) ++ post.filter (fun x => x.enabled)
          = []
      · obtain ⟨hP, hQ⟩ := List.append_eq_nil.mp hPQ
        rw [hP, hQ]
        simp [deviceSimpleRules, hmode, hnone, appendRules_nil]
      · have hds : deviceSimpleRules
              (pre.filter (fun x => x.enabled) ++ d :: post.filter (fun x => x.enabled))
            = deviceSimpleRules
              (pre.filter (fun x => x.enabled) ++ post.filter (fun x => x.enabled)) := by
          unfold deviceSimpleRules
          rw [List.filterMap_append, List.filterMap_cons, List.filterMap_append]
          simp [hmode]
        have hent : (pre.filter (fun x => x.enabled) ++
              d :: post.filter (fun x => x.enabled)).filterMap
              (customEntryFor services listFiles)
            = (pre.filter (fun x => x.enabled) ++
              post.filter (fun x => x.enabled)).filterMap
              (customEntryFor services listFiles) := by
          rw [List.filterMap_append, List.filterMap_cons, hnone, List.filterMap_append]
        have h1 : (pre.filter (fun x => x.enabled) ++
            d :: post.filter (fun x => x.enabled)).isEmpty = false := by
          simp [List.isEmpty_iff]
        have h2 : (pre.filter (fun x => x.enabled) ++
            post.filter (fun x => x.enabled)).isEmpty = false := by
          simp [List.isEmpty_iff, hPQ]
        rw [hds, hent, h1, h2]

/-- C10 witness: the concrete empty custom device alongside the configured
one, compiled from the empty nft state. -/
theorem C10_empty_custom_device_inert_witness :
    customEntryFor [svcW] listFilesNone devEmpty = none ∧
    generate_device_rules ([devW] ++ devEmpty :: []) [svcW] listFilesNone true stNftEmpty
      = generate_device_rules ([devW] ++ []) [svcW] listFilesNone true stNftEmpty :=
  C10_empty_custom_device_inert [devW] [] [svcW] listFilesNone true stNftEmpty devEmpty
    rfl rfl rfl rfl

/-- C1: the claim asserts `generate_singbox_config` omits invalid-tag rules
and never fails; in fact the base config's `route` dict carries no `rules`
list, so the default-rule append raises `KeyError` already on the minimal
input of no tunnels, no groups and the always-valid `direct-out` active
outbound.  The spec's own output contract (`route:{auto_detect_interface,
rules:[...]}`) shows the missing `"rules": []` initialisation is a slip in
the code. -/
theorem C1_generation_raises_keyerror :
    generate_singbox_config [] [] (some "direct-out") none
      = Except.error "KeyError: rules" := rfl

/-- C5: `parse_share_link` always returns a tunnel or `None` (each
protocol body's exceptions are caught), and the malformed links of the
claim — missing `@`, non-numeric port, malformed host:port — all yield
`None` rather than an error. -/
theorem C5_parse_share_link_total :
    (∀ gid link : String,
      parse_share_link gid link = none ∨ ∃ t, parse_share_link gid link = some t) ∧
    (∀ gid : String, parse_share_link gid "vless://missinghost" = none) ∧
    (∀ gid : String, parse_share_link gid "vless://u@1.2.3.4:xy" = none) ∧
    (∀ gid : String, parse_share_link gid "vless://u@hostnoport" = none) ∧
    (∀ gid : String, parse_share_link gid "trojan://pwnoat" = none) ∧
    (∀ gid : String, parse_share_link gid "ss://Zm9v" = none) ∧
    (∀ gid : String, parse_share_link gid "vmess://!!!" = none) ∧
    (∀ gid : String, parse_share_link gid "hy2://hostnoport" = none) := by
  refine ⟨?_, fun _ => rfl, fun _ => rfl, fun _ => rfl, fun _ => rfl,
    fun _ => rfl, fun _ => rfl, fun _ => rfl⟩
  intro gid link
  cases h : parse_share_link gid link with
  | none => exact Or.inl rfl
  | some t => exact Or.inr ⟨t, rfl⟩

/-- C6: the concrete reality link parses to a vless tunnel at
`1.2.3.4:443` with a reality TLS block carrying server name `google.com`,
public key `KEY123` and short id `ab`. -/
theorem C6_vless_reality_scenario :
    ∀ gid : String,
      (parse_vless_link gid link6).map Tunnel.type = some "vless" ∧
      (parse_vless_link gid link6).map Tunnel.server = some "1.2.3.4" ∧
      (parse_vless_link gid link6).map Tunnel.port = some 443 ∧
      (parse_vless_link gid link6).map (fun t => dget t.tls "type")
        = some (some (JVal.str "reality")) ∧
      (parse_vless_link gid link6).map (fun t => dget t.tls "enabled")
        = some (some (JVal.bool true)) ∧
      (parse_vless_link gid link6).map (fun t => dget t.tls "server_name")
        = some (some (JVal.str "google.com")) ∧
      (parse_vless_link gid link6).map (fun t => dget t.tls "public_key")
        = some (some (JVal.str "KEY123")) ∧
      (parse_vless_link gid link6).map (fun t => dget t.tls "short_id")
        = some (some (JVal.str "ab")) :=
  fun _ => ⟨rfl, rfl, rfl, rfl, rfl, rfl, rfl, rfl⟩

/-- C8: deleting a subscription keeps the remaining tunnels in their
original relative order (a sublist of the store) and a tunnel survives if
and only if it was stored and its `subscription_id` differs from the
deleted id (absent ids survive as well). -/
theorem C8_delete_subscription_exact :
    ∀ (subs : List Subscription) (tunnels : List Tunnel) (sub_id : String),
      ((delete_subscription subs tunnels sub_id).2).Sublist tunnels ∧
      (∀ t : Tunnel, t ∈ (delete_subscription subs tunnels sub_id).2 ↔
        (t ∈ tunnels ∧ t.subscription_id ≠ some sub_id)) := by
  intro subs tunnels sub_id
  constructor
  · exact List.filter_sublist tunnels
  · intro t
    simp [delete_subscription, List.mem_filter]

/-- C8 witness: concrete three-tunnel store; deleting `sub1` keeps exactly
the two tunnels not owned by it. -/
theorem C8_delete_subscription_witness :
    ((delete_subscription [] [tSub, tKeep, tManual] "sub1").2).Sublist
        [tSub, tKeep, tManual] ∧
    (∀ t : Tunnel, t ∈ (delete_subscription [] [tSub, tKeep, tManual] "sub1").2 ↔
      (t ∈ [tSub, tKeep, tManual] ∧ t.subscription_id ≠ some "sub1")) :=
  C8_delete_subscription_exact [] [tSub, tKeep, tManual] "sub1"

/-- C3 counterexample: the base64 subscription parser's own output tags
tunnels `source = import` (inherited from the per-link parsers), not
`subscription`, refuting the claim for the base64 parser. -/
theorem C3_counterexample_import_tag :
    (parse_base64_subscription sampleGids b64OneLink).map Tunnel.source = ["import"] ∧
    ("import" : String) ≠ "subscription" :=
  ⟨rfl, by decide⟩

/-- C3 amended: the Clash and sing-box subscription parsers tag every
tunnel `source = subscription`, while the base64 link-list parser's
tunnels carry `source = import` from the per-link parsers; no parser
assigns a subscription id (the caller does, after parsing). -/
theorem C3_amended_parser_source_tags :
    ∀ (yload : String → Except String JVal) (gids : Nat → String) (content : String),
      ((parse_base64_subscription gids content).all
          (fun t => t.source == "import" && t.subscription_id == none) = true) ∧
      ((parse_clash_subscription yload gids content).all
          (fun t => t.source == "subscription" && t.subscription_id == none) = true) ∧
      ((parse_singbox_subscription gids content).all
          (fun t => t.source == "subscription" && t.subscription_id == none) = true) := by
  intro yload gids content
  refine ⟨?_, ?_, ?_⟩
  · unfold parse_base64_subscription
    split
    · rfl
    · exact parseShareLines_all _ (fun gid link t h =>
        import_flag_of t (parse_share_link_import gid link t h).1
          (parse_share_link_import gid link t h).2) gids _
  · unfold parse_clash_subscription
    split
    · rfl
    · exact collectSteps_all _ _ (fun i x t h =>
        subscription_flag_of t (clashProxyStep_subscription _ _ t h).1
          (clashProxyStep_subscription _ _ t h).2) _ 0 [] rfl
  · unfold parse_singbox_subscription
    split
    · rfl
    · exact collectSteps_all _ _ (fun i x t h =>
        subscription_flag_of t (singboxOutboundStep_subscription _ _ t h).1
          (singboxOutboundStep_subscription _ _ t h).2) _ 0 [] rfl

/-- C4 counterexample: a raw (non-base64) share-link body makes the base64
attempt yield no tunnels, yet `auto` parsing returns a tunnel through the
raw-line fallback instead of the empty list the claim requires. -/
theorem C4_counterexample_raw_fallback :
    parse_base64_subscription sampleGids rawOneLink = [] ∧
    parse_subscription_content yloadUnmodelled sampleGids rawOneLink "auto" ≠ [] :=
  ⟨rfl, fun h => absurd (congrArg List.length h) (by decide)⟩

/-- C4 amended: with hint `auto`, a leading `{` selects the sing-box
parser and a leading `proxies:` the Clash parser; otherwise the content is
tried as base64 first and, when that yields no tunnels, each line is
additionally tried as a raw share link (so the result is empty only when
both attempts produce nothing). -/
theorem C4_amended_auto_dispatch :
    ∀ (yload : String → Except String JVal) (gids : Nat → String) (content : String),
      (startsWith [lbrace] (pyStrip content.data) = true →
        parse_subscription_content yload gids content "auto"
          = parse_singbox_subscription gids (String.mk (pyStrip content.data))) ∧
      (startsWith [lbrace] (pyStrip content.data) = false →
        startsWith "proxies:".data (pyStrip content.data) = true →
        parse_subscription_content yload gids content "auto"
          = parse_clash_subscription yload gids (String.mk (pyStrip content.data))) ∧
      (startsWith [lbrace] (pyStrip content.data) = false →
        startsWith "proxies:".data (pyStrip content.data) = false →
        parse_subscription_content yload gids content "auto"
          = (if (parse_base64_subscription gids (String.mk (pyStrip content.data))).isEmpty
             then parseShareLines gids (splitAll '\n' (pyStrip content.data))
             else parse_base64_subscription gids (String.mk (pyStrip content.data)))) := by
  intro yload gids content
  refine ⟨?_, ?_, ?_⟩
  · intro h1
    unfold parse_subscription_content
    simp only []
    rw [if_pos (Or.inr ⟨rfl, h1⟩)]
  · intro h1 h2
    unfold parse_subscription_content
    simp only []
    rw [if_neg (by
      rintro (hx | ⟨_, hx⟩)
      · exact absurd hx (by decide)
      · exact absurd hx (by simp [h1]))]
    rw [if_pos (Or.inr ⟨rfl, h2⟩)]
  · intro h1 h2
    unfold parse_subscription_content
    simp only []
    rw [if_neg (by
      rintro (hx | ⟨_, hx⟩)
      · exact absurd hx (by decide)
      · exact absurd hx (by simp [h1]))]
    rw [if_neg (by
      rintro (hx | ⟨_, hx⟩)
      · exact absurd hx (by decide)
      · exact absurd hx (by simp [h2]))]
    by_cases hb : (parse_base64_subscription gids (String.mk (pyStrip content.data))).isEmpty
    · simp [hb]
    · simp [hb]

/-- C4 witness: on the raw one-link body neither shape matches, so `auto`
falls to the base64-then-raw-lines branch. -/
theorem C4_amended_witness :
    parse_subscription_content yloadUnmodelled sampleGids rawOneLink "auto"
      = (if (parse_base64_subscription sampleGids (String.mk (pyStrip rawOneLink.data))).isEmpty
         then parseShareLines sampleGids (splitAll '\n' (pyStrip rawOneLink.data))
         else parse_base64_subscription sampleGids (String.mk (pyStrip rawOneLink.data))) :=
  (C4_amended_auto_dispatch yloadUnmodelled sampleGids rawOneLink).2.2 (by decide) (by decide)

/-- C7: a group outbound's member list is exactly the tags of the group's
member tunnels that are currently enabled, in member-list order (the loop
computes the declarative filterMap); urltest groups carry the tolerance
(default 50); the assembled outbound array keeps exactly the groups whose
member list is non-empty; and the concrete scenario (enabled A, B, C and a
urltest group over [A, C] with tolerance 50) emits member tags
[vless-a, vless-c] with tolerance 50. -/
theorem C7_group_emission :
    (∀ (g : TunnelGroup) (ts : List Tunnel),
        groupMemberTags g ts = g.tunnels.filterMap (fun tid =>
          (ts.find? (fun t => t.id == tid && t.enabled)).map tunnelTag)) ∧
    (∀ (g : TunnelGroup) (ts : List Tunnel),
        dget (generate_group_outbound g ts) "outbounds"
          = some (JVal.arr ((groupMemberTags g ts).map JVal.str))) ∧
    (∀ (g : TunnelGroup) (ts : List Tunnel), g.type = "urltest" →
        dget (generate_group_outbound g ts) "tolerance"
          = some (JVal.num (g.tolerance.getD 50))) ∧
    (∀ (ts : List Tunnel) (gs : List TunnelGroup),
        configOutbounds ts gs
          = .obj [("type", .str "direct"), ("tag", .str "direct-out")] ::
              ((ts.filter (fun t => t.enabled)).map
                  (fun t => .obj (generate_tunnel_outbound t)) ++
                (gs.filter (fun g => !(groupMemberTags g ts).isEmpty)).map
                  (fun g => .obj (generate_group_outbound g ts)))) ∧
    (dget (generate_group_outbound g7c [t7A, t7B, t7C]) "outbounds"
        = some (JVal.arr [JVal.str "vless-a", JVal.str "vless-c"])) ∧
    (dget (generate_group_outbound g7c [t7A, t7B, t7C]) "tolerance"
        = some (JVal.num 50)) ∧
    (∃ pre, configOutbounds [t7A, t7B, t7C] [g7c]
        = pre ++ [JVal.obj (generate_group_outbound g7c [t7A, t7B, t7C])]) := by
  refine ⟨groupMemberTags_eq, group_outbound_outbounds, ?_, configOutbounds_eq,
    rfl, rfl,
    ⟨[JVal.obj [("type", JVal.str "direct"), ("tag", JVal.str "direct-out")],
      JVal.obj (generate_tunnel_outbound t7A), JVal.obj (generate_tunnel_outbound t7B),
      JVal.obj (generate_tunnel_outbound t7C)], rfl⟩⟩
  intro g ts h
  unfold generate_group_outbound
  have hb : (g.type == "urltest") = true := by simp [h]
  rw [if_pos hb]
  rfl

/-- C7 witness: the urltest-tolerance clause instantiated at the concrete
scenario group. -/
theorem C7_group_emission_witness :
    dget (generate_group_outbound g7c [t7A, t7B, t7C]) "tolerance"
      = some (JVal.num (g7c.tolerance.getD 50)) :=
  C7_group_emission.2.2.1 g7c [t7A, t7B, t7C] rfl

/-- C9 counterexample: when the config write raises and the restore copy
in the `except` handler raises as well, `apply_singbox_config` does not
return `False` — the exception escapes the handler. -/
theorem C9_counterexample_restore_raises :
    (apply_singbox_config oC9bad [] stC9).2
        = Except.error "exception escaped the except handler" ∧
    (apply_singbox_config oC9bad [] stC9).2 ≠ Except.ok false := by
  refine ⟨rfl, fun h => ?_⟩
  exact Except.noConfusion
    (h : Except.error "exception escaped the except handler" = Except.ok false)

/-- C9 amended: with no exception, the config is backed up (when present)
and written and the result is `returncode == 0`; on an exception during
backup, write or restart, if the restore copy itself does not raise the
function restores the backup over the config (when a backup file exists)
and returns `False`; if the restore copy raises, the exception propagates
instead of returning `False`. -/
theorem C9_amended_apply_contract :
    ∀ (o : ApplyOracle) (cfg : Dict) (st : FsState),
      (o.backupCopyRaises = false → o.writeRaises = false →
        ∀ code, o.restart = Except.ok code →
          apply_singbox_config o cfg st
            = ({ config := some cfg,
                 backup := if st.config.isSome then st.config else st.backup },
               Except.ok (code == 0))) ∧
      (o.restoreCopyRaises = false →
        ((st.config.isSome = true ∧ o.backupCopyRaises = true) ∨
          o.writeRaises = true ∨ o.restart = Except.error ()) →
        ((apply_singbox_config o cfg st).2 = Except.ok false ∧
         ((apply_singbox_config o cfg st).1.backup.isSome = true →
            (apply_singbox_config o cfg st).1.config
              = (apply_singbox_config o cfg st).1.backup))) ∧
      (o.restoreCopyRaises = true →
        ((st.config.isSome = true ∧ o.backupCopyRaises = true) ∨
          o.writeRaises = true ∨ o.restart = Except.error ()) →
        (apply_singbox_config o cfg st).1.backup.isSome = true →
        ∃ e, (apply_singbox_config o cfg st).2 = Except.error e) := by
  intro o cfg st
  obtain ⟨bc, wr, rs, rc⟩ := o
  obtain ⟨c, b⟩ := st
  refine ⟨?_, ?_, ?_⟩
  · intro h1 h2 code h3
    subst h1; subst h2; subst h3
    cases c <;> simp [apply_singbox_config]
  · intro h1 h2
    subst h1
    rcases h2 with ⟨hc, hbc⟩ | hwr | hrs
    · subst hbc
      cases c <;> simp_all [apply_singbox_config] <;> cases b <;> simp [apply_singbox_config]
    · subst hwr
      cases bc <;> cases c <;> cases b <;> simp [apply_singbox_config]
    · subst hrs
      cases bc <;> cases wr <;> cases c <;> cases b <;> simp [apply_singbox_config]
  · intro h1 h2 h3
    subst h1
    rcases h2 with ⟨hc, hbc⟩ | hwr | hrs
    · subst hbc
      cases c <;> simp_all [apply_singbox_config] <;> cases b <;> simp_all [apply_singbox_config]
    · subst hwr
      cases bc <;> cases c <;> cases b <;> simp_all [apply_singbox_config]
    · subst hrs
      cases bc <;> cases wr <;> cases c <;> cases b <;> simp_all [apply_singbox_config]

/-- C9 witness: a clean run returns true with the backup taken, and a
failing write with a working restore returns false. -/
theorem C9_amended_apply_witness :
    apply_singbox_config oC9good [("k", JVal.null)] stC9
        = ({ config := some [("k", JVal.null)],
             backup := if stC9.config.isSome then stC9.config else stC9.backup },
           Except.ok ((0 : Int) == 0)) ∧
    (apply_singbox_config oC9restore [("k", JVal.null)] stC9).2 = Except.ok false :=
  ⟨(C9_amended_apply_contract oC9good [("k", JVal.null)] stC9).1 rfl rfl 0 rfl,
   ((C9_amended_apply_contract oC9restore [("k", JVal.null)] stC9).2.1 rfl
      (Or.inr (Or.inl rfl))).1⟩

end Pinpoint
